import Mathlib

/-!
Shallow embedding of the polymer Level1 block-production pipeline
(`level1_ascii.py`, `level1_meris.py`) together with proofs of the
specification claims about it.

Modelling conventions:
* scalar cells are `Option ℚ`; `none` plays the role of the IEEE NaN
  sentinel used by the Python code (`np.NaN`): arithmetic propagates
  `none`, ordered comparisons against `none` are `false`, and
  `np.isnan` is `Option.isNone`;
* numpy arrays are nested lists (row major), 1-D pandas columns are
  plain lists;
* Python code that can raise returns `Except PyErr _`;
* external modules of the repository that are not part of the two
  embedded source files (`block.Block`, `common.L2FLAGS`, the `epr`
  binary-product library, CSV/auxiliary-file parsing) are modelled from
  the specification, and are marked as such in their doc comments.
-/

/-- Scalar cell value of an array or CSV column; `none` models NaN. -/
abbrev Val := Option ℚ

/-- Row-major 2-D array of scalars (per-pixel field). -/
abbrev Arr2 := List (List Val)

/-- Row-major 3-D array of scalars with a trailing band axis. -/
abbrev Arr3 := List (List (List Val))

/-- Model of `np.isnan` on one scalar. -/
def vIsNaN (v : Val) : Bool := v.isNone

/-- Model of the elementwise comparison `< 0` (a NaN compares false). -/
def vLt0 : Val → Bool
  | none => false
  | some q => decide (q < 0)

/-- NaN-propagating addition. -/
def vAdd : Val → Val → Val
  | some a, some b => some (a + b)
  | _, _ => none

/-- NaN-propagating square, for `x**2`. -/
def vSq : Val → Val
  | some a => some (a * a)
  | none => none

/-- Model of `np.sqrt` on one scalar: NaN on NaN and on negative input;
`Rat.sqrt` stands in for the real square root (it is exact on perfect
squares, which covers every concrete value these proofs evaluate). -/
def vSqrt : Val → Val
  | none => none
  | some q => if q < 0 then none else some (Rat.sqrt q)

/-- NaN-propagating absolute difference `abs (a - b)`, used by the
derived relative-azimuth view. -/
def vAbsSub : Val → Val → Val
  | some a, some b => some |a - b|
  | _, _ => none

/-- Python-level failure outcomes of the embedded code. The first four
constructors are raised by the source itself (`KeyError` from a dict
lookup, `ValueError` from `reshape`/`read_csv`, `AssertionError` from
`assert`, `Exception` from an explicit `raise`). The remaining
constructors are the specification's §7 error taxonomy, which names no
exception class of the source; they exist so that statements can compare
the taxonomy with what the code actually raises. -/
inductive PyErr
  | keyError (key : String)
  | valueError (msg : String)
  | assertionError
  | exception (msg : String)
  | shapeError
  | configurationError
  | sourceOpenError
  | formatReadError
deriving DecidableEq, Repr

deriving instance DecidableEq for Except

/-- Python slice `l[a:b]` (truncating at the list's length, as Python
slicing does). -/
def pySlice {α : Type} (l : List α) (a b : Nat) : List α := (l.take b).drop a

/-- Rows of a row-major reshape: row `r` is `l[r*x : r*x + x]`. -/
def chunkRows {α : Type} (l : List α) (y x : Nat) : List (List α) :=
  (List.range y).map fun r => (l.drop (r * x)).take x

/-- Model of `.reshape((y, x))` on a 1-D array: numpy raises `ValueError`
unless the length matches exactly — it never truncates. -/
def reshape2 {α : Type} (l : List α) (y x : Nat) : Except PyErr (List (List α)) :=
  if l.length = y * x then .ok (chunkRows l y x) else .error (.valueError "reshape")

/-- Shape predicate for a 2-D array. -/
def shape2 {α : Type} (A : List (List α)) (y x : Nat) : Prop :=
  A.length = y ∧ ∀ r ∈ A, r.length = x

/-- Shape predicate for a 3-D array whose trailing (band) axis is `n`. -/
def shape3 (A : Arr3) (y x n : Nat) : Prop :=
  A.length = y ∧ ∀ r ∈ A, r.length = x ∧ ∀ c ∈ r, c.length = n

/-- Cell read of a 2-D array; out-of-range reads give NaN (the embedded
code only ever reads in range). -/
def cell2 (A : Arr2) (r c : Nat) : Val :=
  (A[r]?.bind fun row => row[c]?).getD none

/-- Band slice `A[:,:,i]` of a 3-D array. -/
def sliceBand (A : Arr3) (i : Nat) : Arr2 :=
  A.map fun row => row.map fun cs => cs[i]?.getD none

/-- Cell read of a 3-D array at `(r, c, i)`; NaN out of range. -/
def cell3 (A : Arr3) (r c i : Nat) : Val :=
  ((A[r]?.bind fun row => row[c]?).bind fun cs => cs[i]?).getD none

/-- Cell read of a 2-D integer array (detector indices), 0 out of range. -/
def cellI (A : List (List Int)) (r c : Nat) : Int :=
  (A[r]?.bind fun row => row[c]?).getD 0

/-- Assembly of a `(y, x, nbands)` array from per-band 2-D layers, as the
loops `A[:,:,iband] = layer` produce after `A = np.zeros((y,x,n)) + np.NaN`. -/
def stack3 (y x : Nat) (layers : List Arr2) : Arr3 :=
  (List.range y).map fun r => (List.range x).map fun c =>
    layers.map fun L => cell2 L r c

/-- Constant 2-D array, for a whole-slice scalar assignment. -/
def const2 (y x : Nat) (v : Val) : Arr2 :=
  List.replicate y (List.replicate x v)

/-- Elementwise combination of two equally-shaped 2-D arrays. -/
def zip2With {α β γ : Type} (f : α → β → γ)
    (A : List (List α)) (B : List (List β)) : List (List γ) :=
  List.zipWith (fun ra rb => List.zipWith f ra rb) A B

/-- Python dict lookup `d[k]`, raising `KeyError` when the key is absent. -/
def pyGet {α β : Type} [BEq α] [ToString α] (d : List (α × β)) (k : α) :
    Except PyErr β :=
  match List.lookup k d with
  | some v => .ok v
  | none => .error (.keyError (toString k))

/-- Number of tiles produced by the blocking strategy:
`int(np.ceil(float(height)/blocksize))`, i.e. `⌈height / blocksize⌉`. -/
def nblocksOf (height blocksize : Nat) : Nat := (height + blocksize - 1) / blocksize

/-- The blocking strategy shared verbatim by `Level1_MERIS.blocks` and
`Level1_ASCII.blocks`: the ordered list of `(offset, size)` tile
descriptors, with `offset = (iblock*blocksize, 0)` and
`size = (ysize, width)`, where the last tile's `ysize` is
`height - (nblocks-1)*blocksize` and every other tile's is `blocksize`. -/
def blocks (height width blocksize : Nat) : List ((Nat × Nat) × (Nat × Nat)) :=
  (List.range (nblocksOf height blocksize)).map fun iblock =>
    ((iblock * blocksize, 0),
     (if iblock = nblocksOf height blocksize - 1
      then height - (nblocksOf height blocksize - 1) * blocksize
      else blocksize,
      width))

/-- Bands stored in the ASCII extractions (`level1_ascii.py`). -/
def BANDS_MODIS : List Nat := [412, 443, 469, 488, 531, 547, 555, 645, 667, 678, 748, 858, 869, 1240]

/-- Bands stored in the ASCII extractions (`level1_ascii.py`). -/
def BANDS_SEAWIFS : List Nat := [412, 443, 490, 510, 555, 670, 765, 865]

/-- Bands stored in the ASCII extractions (`level1_ascii.py`). -/
def BANDS_VIIRS : List Nat := [410, 443, 486, 551, 671, 745, 862, 1238, 1601, 2257]

/-- Modelled from the spec: `BANDS_MERIS` is imported by `level1_ascii.py`
from `level1_meris`, which does not define it under `src/`; it is taken as
the fifteen nominal MERIS bands enumerated by `Level1_MERIS.band_names`. -/
def BANDS_MERIS : List Nat :=
  [412, 443, 490, 510, 560, 620, 665, 681, 709, 754, 760, 779, 865, 885, 900]

/-- The `headers_default` mapping of `level1_ascii.py` from logical field
names to CSV column names. -/
def headers_default : List (String × String) :=
  [("TOA", "TOAR_\x7b:02d\x7d"),
   ("LAT", "LAT"),
   ("LON", "LON"),
   ("DATETIME", "TIME"),
   ("DETECTOR_INDEX", "DETECTOR"),
   ("OZONE", "OZONE_ECMWF"),
   ("WIND", "WINDM"),
   ("SURFACE_PRESSURE", "PRESS_ECMWF"),
   ("SZA", "SUN_ZENITH"),
   ("VZA", "VIEW_ZENITH"),
   ("RAA", "DELTA_AZIMUTH")]

/-- Zero-padded two-digit decimal, the result of `"\x7b:02d\x7d".format n`. -/
def pad2 (n : Nat) : String := if n < 10 then "0" ++ toString n else toString n

/-- Replacement of every occurrence of the pattern `pat` in a character
list by `rep`, fuelled by the list length (so that it is structural). -/
def replaceSubFuel : Nat → List Char → List Char → List Char → List Char
  | 0, l, _, _ => l
  | _ + 1, [], _, _ => []
  | fuel + 1, c :: rest, pat, rep =>
      if List.isPrefixOf pat (c :: rest)
      then rep ++ replaceSubFuel fuel ((c :: rest).drop pat.length) pat rep
      else c :: replaceSubFuel fuel rest pat rep

/-- Model of Python `fmt.format(n)` for a format string built around
`"\x7b:02d\x7d"` placeholders (the only two-digit pattern the source uses). -/
def pyFormat02d (fmt : String) (n : Nat) : String :=
  String.mk (replaceSubFuel fmt.data.length fmt.data
    ['\x7b', ':', '0', '2', 'd', '\x7d'] (pad2 n).data)

/-- Model of Python `fmt.format(n)` for a `"\x7b:d\x7d"` placeholder. -/
def pyFormatD (fmt : String) (n : Nat) : String :=
  String.mk (replaceSubFuel fmt.data.length fmt.data
    ['\x7b', ':', 'd', '\x7d'] (toString n).data)

/-- The per-sensor default band lists: the dict literal indexed by
`sensor` when the `BANDS` argument is `None`. -/
def BANDS_dict : List (String × List Nat) :=
  [("MERIS", BANDS_MERIS), ("MERIS_RR", BANDS_MERIS), ("MERIS_FR", BANDS_MERIS),
   ("SeaWiFS", BANDS_SEAWIFS), ("MODIS", BANDS_MODIS), ("VIIRS", BANDS_VIIRS)]

/-- Resolution of the `BANDS` argument: the dict lookup raises `KeyError`
for an unsupported (or absent) sensor identifier. -/
def resolveBANDS (sensor : Option String) (BANDS : Option (List Nat)) :
    Except PyErr (List Nat) :=
  match BANDS with
  | some bs => .ok bs
  | none =>
    match sensor with
    | none => .error (.keyError "None")
    | some s => pyGet BANDS_dict s

/-- Membership test `sensor in ['MERIS', 'MERIS_RR', 'MERIS_FR']`. -/
def isMerisFamily : Option String → Bool
  | some s => s = "MERIS" || s = "MERIS_RR" || s = "MERIS_FR"
  | none => false

/-- Construction of `self.band_names`: band `b` at position `i` of `BANDS`
maps to column `headers['TOA'].format(i+1)`. -/
def mkBandNames (headers : List (String × String)) (BANDS : List Nat) :
    Except PyErr (List (Nat × String)) := do
  let fmt ← pyGet headers "TOA"
  .ok (BANDS.enum.map fun p => (p.2, pyFormat02d fmt (p.1 + 1)))

/-- Construction of `self.F0_band_names` (`'E0_band\x7b:d\x7d'.format(i)`). -/
def mkF0BandNames (BANDS : List Nat) : List (Nat × String) :=
  BANDS.enum.map fun p => (p.2, pyFormatD "E0_band\x7b:d\x7d" p.1)

/-- Construction of `self.wav_band_names` (`'lam_band\x7b:d\x7d'.format(i)`). -/
def mkWavBandNames (BANDS : List Nat) : List (Nat × String) :=
  BANDS.enum.map fun p => (p.2, pyFormatD "lam_band\x7b:d\x7d" p.1)

/-- Parsed content of an input CSV file — the embedding's stand-in for
the external parser `pd.read_csv`: named numeric columns, the frame's row
count, and the per-row `(tm_yday, tm_mon)` pair that `datetime.strptime`
would yield from the DATETIME column (string-date parsing itself is an
external-library concern outside the model). -/
structure CsvData where
  columns : List (String × List Val)
  nrows : Nat
  dates : List (Nat × Nat)

/-- Well-formed file: every column and the date list have `nrows` rows. -/
def CsvData.wf (f : CsvData) : Prop :=
  (∀ p ∈ f.columns, p.2.length = f.nrows) ∧ f.dates.length = f.nrows

/-- Model of `pd.read_csv(filename, sep=sep, usecols=columns)`: fails
unless every requested column is present in the file; the resulting frame
holds exactly the requested columns. -/
def readCsv (f : CsvData) (cols : List String) :
    Except PyErr (List (String × List Val)) :=
  if cols.all (fun c => (List.lookup c f.columns).isSome)
  then .ok (f.columns.filter (fun p => cols.contains p.1))
  else .error (.valueError "usecols")

/-- The column-assembly phase of `Level1_ASCII.__init__` (source lines
99–120), performing the header-dict lookups in source order; the first
missing logical field raises its `KeyError`. -/
def buildColumns (headers : List (String × String))
    (relative_azimuth wind_module : Bool) (sensor : Option String)
    (additional_headers : List String) (band_names : List (Nat × String)) :
    Except PyErr (List String) := do
  let lat ← pyGet headers "LAT"
  let lon ← pyGet headers "LON"
  let dt ← pyGet headers "DATETIME"
  let oz ← pyGet headers "OZONE"
  let sp ← pyGet headers "SURFACE_PRESSURE"
  let sza ← pyGet headers "SZA"
  let vza ← pyGet headers "VZA"
  let azcols ←
    if relative_azimuth then do
      let raa ← pyGet headers "RAA"
      pure [raa]
    else do
      let saa ← pyGet headers "SAA"
      let vaa ← pyGet headers "VAA"
      pure [saa, vaa]
  let windcols ←
    if wind_module then do
      let w ← pyGet headers "WIND"
      pure [w]
    else do
      let zw ← pyGet headers "ZONAL_WIND"
      let mw ← pyGet headers "MERID_WIND"
      pure [zw, mw]
  let detcols ←
    if isMerisFamily sensor then do
      let d ← pyGet headers "DETECTOR_INDEX"
      pure [d]
    else pure []
  .ok ([lat, lon, dt, oz, sp, sza, vza] ++ azcols ++ windcols ++ detcols
        ++ additional_headers ++ band_names.map (·.2))

/-- Embedding of the `Level1_ASCII` object after construction. For the
non-MERIS sensors the smile attributes are never created by `__init__`;
the empty lists stand for those absent attributes. -/
structure Level1_ASCII where
  sensor : Option String
  TOAR : String
  headers : List (String × String)
  relative_azimuth : Bool
  wind_module : Bool
  band_names : List (Nat × String)
  F0 : List (String × List Val)
  detector_wavelength : List (String × List Val)
  F0_band_names : List (Nat × String)
  wav_band_names : List (Nat × String)
  csv : List (String × List Val)
  height : Nat
  width : Nat
  blocksize : Nat
  dates : List (Nat × Nat)
deriving DecidableEq

/-- Embedding of `Level1_ASCII.__init__`. `smileF0` and `smileWav` are
the parsed contents of the two auxiliary smile files `np.genfromtxt`
loads for the MERIS family (field name → column indexed by detector
index); they are plumbed in as data since file I/O is outside the model.
The `assert nrows % square == 0` is the `assertionError` branch; Python
`%` by zero raises before it. -/
def initASCII (file : CsvData) (square blocksize : Nat)
    (additional_headers : List String) (sensor : Option String)
    (BANDS : Option (List Nat)) (TOAR : String)
    (headers : List (String × String)) (relative_azimuth wind_module : Bool)
    (smileF0 smileWav : List (String × List Val)) :
    Except PyErr Level1_ASCII := do
  let bands ← resolveBANDS sensor BANDS
  let band_names ← mkBandNames headers bands
  let F0 := if isMerisFamily sensor then smileF0 else []
  let detector_wavelength := if isMerisFamily sensor then smileWav else []
  let F0_band_names := if isMerisFamily sensor then mkF0BandNames bands else []
  let wav_band_names := if isMerisFamily sensor then mkWavBandNames bands else []
  let cols ← buildColumns headers relative_azimuth wind_module sensor
    additional_headers band_names
  let csv ← readCsv file cols
  let nrows := file.nrows
  if square = 0 then .error (.exception "ZeroDivisionError")
  else if nrows % square = 0 then
    let height := nrows / square
    let width := square
    let dates := file.dates
    .ok { sensor, TOAR, headers, relative_azimuth, wind_module, band_names,
          F0, detector_wavelength, F0_band_names, wav_band_names,
          csv, height, width, blocksize, dates }
  else .error .assertionError

/-- Modelled from the spec: the `Block` value object (`block.py` is not
under `src/`) — a pure data holder whose per-pixel fields are assigned by
the producing tabular source; `Option` marks attributes that a given
configuration never assigns (`raaStored` models the stored `_raa`). -/
structure BlockA where
  offset : Nat × Nat
  size : Nat × Nat
  bands : List Nat
  wavelen : Arr3
  latitude : Arr2
  longitude : Arr2
  sza : Arr2
  vza : Arr2
  raaStored : Option Arr2
  saa : Option Arr2
  vaa : Option Arr2
  Rtoa : Option Arr3
  Ltoa : Option Arr3
  F0 : Option Arr3
  jday : List (List Nat)
  month : List (List Nat)
  bitmask : List (List Nat)
  ozone : Arr2
  wind_speed : Arr2
  surf_press : Arr2
deriving DecidableEq

/-- Modelled from the spec: the Block's derived relative-azimuth view
(`block.raa`) — the stored `_raa` when present, otherwise the absolute
difference of the stored sun and view azimuths (§4.3). -/
def raaView : Option Arr2 → Option Arr2 → Option Arr2 → Except PyErr Arr2
  | some r, _, _ => .ok r
  | none, some sa, some va => .ok (zip2With vAbsSub sa va)
  | _, _, _ => .error (.exception "AttributeError: raa")

/-- Modelled from the spec: `common.L2FLAGS` is not under `src/`; the
quality flag set is a fixed enumeration of independent named bits (§3),
so the two flags the sources use get distinct powers of two. -/
def L2FLAGS_LAND : Nat := 1

/-- Modelled from the spec: the invalid-pixel bit of the flag enumeration
(see `L2FLAGS_LAND`). -/
def L2FLAGS_L1_INVALID : Nat := 4

/-- Truncating conversion `astype('int')` of one scalar (toward zero);
numpy's conversion of NaN is platform-defined garbage, modelled as 0 —
no claim evaluates it on NaN. -/
def vToInt : Val → Int
  | none => 0
  | some q => if q < 0 then Rat.ceil q else Rat.floor q

/-- Vectorized table row selection `col[d]` for one index: numpy raises
on an out-of-range index and wraps a negative one; the claims only
exercise in-range indices, for which this model agrees (out of range
yields NaN here). -/
def npIndex (col : List Val) (d : Int) : Val :=
  if 0 ≤ d then (col[d.toNat]?.getD none) else none

/-- Embedding of `Level1_ASCII.get_field`: header lookup, column lookup,
slice, reshape (the `astype('float32')` cast is the identity in the
exact-rational value model). The non-cast accesses of `read_block`
(ozone, wind, pressure) follow the identical path. -/
def Level1_ASCII.get_field (s : Level1_ASCII) (fname : String)
    (sl : Nat × Nat) (size : Nat × Nat) : Except PyErr Arr2 := do
  let cname ← pyGet s.headers fname
  let col ← pyGet s.csv cname
  reshape2 (pySlice col sl.1 sl.2) size.1 size.2

/-- One band's 2-D TOA layer:
`self.csv[self.band_names[band]][sl].reshape(size)`. -/
def Level1_ASCII.toaLayer (s : Level1_ASCII) (sl : Nat × Nat)
    (size : Nat × Nat) (band : Nat) : Except PyErr Arr2 := do
  let name ← pyGet s.band_names band
  let col ← pyGet s.csv name
  reshape2 (pySlice col sl.1 sl.2) size.1 size.2

/-- One band's 2-D calibration layer `tbl[names[band]][di]` (vectorized
lookup of a smile-table column by the detector-index array). -/
def lookupLayer (tbl : List (String × List Val)) (names : List (Nat × String))
    (di : List (List Int)) (band : Nat) : Except PyErr Arr2 := do
  let name ← pyGet names band
  let col ← pyGet tbl name
  .ok (di.map fun row => row.map fun d => npIndex col d)

/-- The flat slice `sl = slice(offset[0]*xsize, (offset[0]+ysize)*xsize)`
computed at the top of `Level1_ASCII.read_block`. -/
def slOf (offset size : Nat × Nat) : Nat × Nat :=
  (offset.1 * size.2, (offset.1 + size.1) * size.2)

/-- The azimuth-reading step of `read_block` (source lines 164–168):
either the stored relative azimuth, or the sun/view azimuth pair. -/
def Level1_ASCII.azStep (s : Level1_ASCII) (sl size : Nat × Nat) :
    Except PyErr (Option Arr2 × Option Arr2 × Option Arr2) :=
  if s.relative_azimuth then do
    let r ← s.get_field "RAA" sl size
    pure (some r, (none : Option Arr2), (none : Option Arr2))
  else do
    let sa ← s.get_field "SAA" sl size
    let va ← s.get_field "VAA" sl size
    pure ((none : Option Arr2), some sa, some va)

/-- The radiometric-mode dispatch of `read_block` (source lines 176–183):
the TOA array becomes `Rtoa` or `Ltoa`, any other mode raises. -/
def Level1_ASCII.toarStep (s : Level1_ASCII) (TOA : Arr3) :
    Except PyErr (Option Arr3 × Option Arr3) :=
  if s.TOAR = "reflectance" then pure ((some TOA : Option Arr3), (none : Option Arr3))
  else if s.TOAR = "radiance" then pure ((none : Option Arr3), (some TOA : Option Arr3))
  else .error (.exception ("Invalid TOAR type " ++ s.TOAR))

/-- The detector-index read of `read_block` (source line 187):
`self.csv[self.headers['DETECTOR_INDEX']][sl].reshape(size).astype('int')`. -/
def Level1_ASCII.detStep (s : Level1_ASCII) (sl size : Nat × Nat) :
    Except PyErr (List (List Int)) := do
  let dname ← pyGet s.headers "DETECTOR_INDEX"
  let dcol ← pyGet s.csv dname
  let di2 ← reshape2 (pySlice dcol sl.1 sl.2) size.1 size.2
  pure (di2.map fun row => row.map vToInt)

/-- The spectral-calibration step of `read_block` (source lines 186–200):
for the MERIS family, per-pixel-per-band flux and wavelength looked up by
detector index; otherwise wavelength is each band's nominal value and no
flux attribute is created. Returns `(wavelen, F0)`. -/
def Level1_ASCII.smileStep (s : Level1_ASCII) (sl size : Nat × Nat)
    (bands : List Nat) : Except PyErr (Arr3 × Option Arr3) :=
  if isMerisFamily s.sensor then do
    let di ← s.detStep sl size
    let f0Layers ← bands.mapM (lookupLayer s.F0 s.F0_band_names di)
    let wavLayers ← bands.mapM (lookupLayer s.detector_wavelength s.wav_band_names di)
    pure (stack3 size.1 size.2 wavLayers,
          (some (stack3 size.1 size.2 f0Layers) : Option Arr3))
  else
    pure (stack3 size.1 size.2 (bands.map fun (band : Nat) => const2 size.1 size.2 (some (band : ℚ))),
          (none : Option Arr3))

/-- The wind-speed step of `read_block` (source lines 217–222): the wind
module read directly, or derived from the zonal and meridional components. -/
def Level1_ASCII.windStep (s : Level1_ASCII) (sl size : Nat × Nat) :
    Except PyErr Arr2 :=
  if s.wind_module then s.get_field "WIND" sl size
  else do
    let zw ← s.get_field "ZONAL_WIND" sl size
    let mw ← s.get_field "MERID_WIND" sl size
    pure (zip2With (fun a b => vSqrt (vAdd (vSq a) (vSq b))) zw mw)

/-- The per-pixel invalid flag of the tabular bitmask (source lines
209–210): `np.isnan(block.raa) | (TOA[:,:,0] < 0)` at one pixel. -/
def invalidCell (raa toa0 : Val) : Bool := vIsNaN raa || vLt0 toa0

/-- One cell of the tabular bitmask (source lines 208–211): the uint16
value `L2FLAGS['L1_INVALID'] * invalid`. -/
def asciiBitmaskCell (b : Bool) : Nat :=
  (L2FLAGS_L1_INVALID * (if b then 1 else 0)) % 65536

/-- Embedding of `Level1_ASCII.read_block` (source lines 147–227), in
source statement order so that the first Python exception is the error
returned. `sliceBand TOA 0` on an empty band list models the
`TOA[:,:,0]` access as an all-NaN slice where numpy would raise; the
claims about the bitmask assume at least one requested band. -/
def Level1_ASCII.read_block (s : Level1_ASCII) (size : Nat × Nat)
    (offset : Nat × Nat) (bands : List Nat) : Except PyErr BlockA := do
  let ysize := size.1
  let xsize := size.2
  let sl := slOf offset size
  let latitude ← s.get_field "LAT" sl size
  let longitude ← s.get_field "LON" sl size
  let sza ← s.get_field "SZA" sl size
  let vza ← s.get_field "VZA" sl size
  let azims ← s.azStep sl size
  let toaLayers ← bands.mapM (s.toaLayer sl size)
  let TOA := stack3 ysize xsize toaLayers
  let rl ← s.toarStep TOA
  let wavF0 ← s.smileStep sl size bands
  let jday ← reshape2 (pySlice (s.dates.map Prod.fst) sl.1 sl.2) ysize xsize
  let month ← reshape2 (pySlice (s.dates.map Prod.snd) sl.1 sl.2) ysize xsize
  let raaArr ← raaView azims.1 azims.2.1 azims.2.2
  let invalid := zip2With invalidCell raaArr (sliceBand TOA 0)
  let bitmask := invalid.map fun row => row.map asciiBitmaskCell
  let ozone ← s.get_field "OZONE" sl size
  let wind_speed ← s.windStep sl size
  let surf_press ← s.get_field "SURFACE_PRESSURE" sl size
  .ok { offset, size, bands, wavelen := wavF0.1, latitude, longitude, sza, vza,
        raaStored := azims.1, saa := azims.2.1, vaa := azims.2.2,
        Rtoa := rl.1, Ltoa := rl.2, F0 := wavF0.2,
        jday, month, bitmask, ozone, wind_speed, surf_press }

/-- The TOA array a produced block carries — `Ltoa` in radiance mode,
`Rtoa` in reflectance mode. -/
def BlockA.toa (b : BlockA) : Arr3 :=
  match b.Ltoa with
  | some a => a
  | none => b.Rtoa.getD []

/-- Cell read of a 2-D natural-number array (bitmask), 0 out of range. -/
def cellN (A : List (List Nat)) (r c : Nat) : Nat :=
  (A[r]?.bind fun row => row[c]?).getD 0

/-- Bit test: whether flag `f` of the bitmask value `m` is set. -/
def hasFlag (m f : Nat) : Bool := decide (m &&& f ≠ 0)

/-- The `ysize`-row window of a 2-D (or 3-D) array starting at row
`yoff` — the rows holding absolute coordinates `yoff..yoff+ysize-1`. -/
def window2 {α : Type} (A : List α) (yoff ysize : Nat) : List α :=
  (A.drop yoff).take ysize

/-- Embedding of the generator `Level1_ASCII.blocks`: one `read_block`
per tile of the blocking strategy, in tile order. -/
def Level1_ASCII.blocksMeth (s : Level1_ASCII) (bands_read : List Nat) :
    List (Except PyErr BlockA) :=
  (blocks s.height s.width s.blocksize).map fun t =>
    s.read_block t.2 t.1 bands_read

/-- Modelled from the spec: the external `epr.Product` binary instrument
file (the `epr` library is not part of the repository) — random-access
full-scene per-band arrays and full-scene boolean rasters for the flag
expressions the source queries (§4.3, §6). -/
structure EprProduct where
  sceneWidth : Nat
  sceneHeight : Nat
  bandData : String → Arr2
  flagData : String → List (List Bool)

/-- The `Level1_MERIS.band_names` dict literal. -/
def MERIS_band_names : List (Nat × String) :=
  [(412, "Radiance_1"), (443, "Radiance_2"), (490, "Radiance_3"),
   (510, "Radiance_4"), (560, "Radiance_5"), (620, "Radiance_6"),
   (665, "Radiance_7"), (681, "Radiance_8"), (709, "Radiance_9"),
   (754, "Radiance_10"), (760, "Radiance_11"), (779, "Radiance_12"),
   (865, "Radiance_13"), (885, "Radiance_14"), (900, "Radiance_15")]

/-- The `Level1_MERIS.F0_band_names` dict literal. -/
def MERIS_F0_band_names : List (Nat × String) :=
  [(412, "E0_band0"), (443, "E0_band1"), (490, "E0_band2"),
   (510, "E0_band3"), (560, "E0_band4"), (620, "E0_band5"),
   (665, "E0_band6"), (681, "E0_band7"), (709, "E0_band8"),
   (754, "E0_band9"), (760, "E0_band10"), (779, "E0_band11"),
   (865, "E0_band12"), (885, "E0_band13"), (900, "E0_band14")]

/-- The `Level1_MERIS.wav_band_names` dict literal. -/
def MERIS_wav_band_names : List (Nat × String) :=
  [(412, "lam_band0"), (443, "lam_band1"), (490, "lam_band2"),
   (510, "lam_band3"), (560, "lam_band4"), (620, "lam_band5"),
   (665, "lam_band6"), (681, "lam_band7"), (709, "lam_band8"),
   (754, "lam_band9"), (760, "lam_band10"), (779, "lam_band11"),
   (865, "lam_band12"), (885, "lam_band13"), (900, "lam_band14")]

/-- Embedding of the `Level1_MERIS` object after construction (its
`__init__` reads scene dimensions and tables; the date-string parsing is
summarized by the resulting `tm_yday` value `dateYday`). -/
structure Level1_MERIS where
  prod : EprProduct
  width : Nat
  totalheight : Nat
  blocksize : Nat
  sline : Nat
  height : Nat
  band_names : List (Nat × String)
  F0 : List (String × List Val)
  F0_band_names : List (Nat × String)
  wav_band_names : List (Nat × String)
  detector_wavelength : List (String × List Val)
  dateYday : Nat

/-- Embedding of `Level1_MERIS.read_band`: the `(ysize, xsize)` window of
the named band at `(yoffset + sline, xoffset)`. -/
def Level1_MERIS.read_band (s : Level1_MERIS) (band_name : String)
    (size offset : Nat × Nat) : Arr2 :=
  (((s.prod.bandData band_name).drop (offset.1 + s.sline)).take size.1).map
    fun row => (row.drop offset.2).take size.2

/-- Embedding of `Level1_MERIS.read_bitmask`: the `(ysize, xsize)` window
of the raster of a flag expression at `(yoffset + sline, xoffset)`. -/
def Level1_MERIS.read_bitmask (s : Level1_MERIS) (size offset : Nat × Nat)
    (bmexpr : String) : List (List Bool) :=
  (((s.prod.flagData bmexpr).drop (offset.1 + s.sline)).take size.1).map
    fun row => (row.drop offset.2).take size.2

/-- Per-pixel blocks of the assembled MERIS quality bitmask: the uint16
sum `L2FLAGS['LAND']*land + L2FLAGS['L1_INVALID']*invalid` over the two
0/1 rasters. -/
def merisBitmaskCell (land invalid : Bool) : Nat :=
  (L2FLAGS_LAND * (if land then 1 else 0)
    + L2FLAGS_L1_INVALID * (if invalid then 1 else 0)) % 65536

/-- Embedding of the Block populated by `Level1_MERIS.read_block`; the
binary-format variant assigns a different attribute set from the tabular
one (notably a scalar `jday` and no `month`), so it gets its own record. -/
structure BlockM where
  offset : Nat × Nat
  size : Nat × Nat
  bands : List Nat
  latitude : Arr2
  longitude : Arr2
  sza : Arr2
  vza : Arr2
  saa : Arr2
  vaa : Arr2
  F0 : Arr3
  wavelen : Arr3
  Ltoa : Arr3
  wind_speed : Arr2
  ozone : Arr2
  surf_press : Arr2
  jday : Nat
  bitmask : List (List Nat)

/-- The per-pixel detector-index array a MERIS block read converts and
indexes with (source line 140, used lines 143–150). -/
def Level1_MERIS.detArr (s : Level1_MERIS) (size offset : Nat × Nat) :
    List (List Int) :=
  (s.read_band "detector_index" size offset).map fun row => row.map vToInt

/-- One band's 2-D radiance layer of a MERIS block:
`self.read_band(self.band_names[band], size, offset)`. -/
def Level1_MERIS.toaLayer (s : Level1_MERIS) (size offset : Nat × Nat)
    (band : Nat) : Except PyErr Arr2 := do
  let name ← pyGet s.band_names band
  pure (s.read_band name size offset)

/-- Well-formed product: every band and flag raster is a full-scene
rectangular array. -/
def EprProduct.wf (p : EprProduct) : Prop :=
  (∀ name, shape2 (p.bandData name) p.sceneHeight p.sceneWidth) ∧
  (∀ bmexpr, shape2 (p.flagData bmexpr) p.sceneHeight p.sceneWidth)

/-- Embedding of `Level1_MERIS.read_block` (source lines 116–181), in
source statement order. The detector-index band is integer-valued in the
product; reading it keeps the numeric conversion explicit via `vToInt`. -/
def Level1_MERIS.read_block (s : Level1_MERIS) (size offset : Nat × Nat)
    (bands : List Nat) : Except PyErr BlockM := do
  let ysize := size.1
  let xsize := size.2
  let latitude := s.read_band "latitude" size offset
  let longitude := s.read_band "longitude" size offset
  let sza := s.read_band "sun_zenith" size offset
  let vza := s.read_band "view_zenith" size offset
  let saa := s.read_band "sun_azimuth" size offset
  let vaa := s.read_band "view_azimuth" size offset
  let di := s.detArr size offset
  let f0Layers ← bands.mapM (lookupLayer s.F0 s.F0_band_names di)
  let F0 := stack3 ysize xsize f0Layers
  let wavLayers ← bands.mapM (lookupLayer s.detector_wavelength s.wav_band_names di)
  let wavelen := stack3 ysize xsize wavLayers
  let toaLayers ← bands.mapM (s.toaLayer size offset)
  let Ltoa := stack3 ysize xsize toaLayers
  let zwind := s.read_band "zonal_wind" size offset
  let mwind := s.read_band "merid_wind" size offset
  let wind_speed := zip2With (fun a b => vSqrt (vAdd (vSq a) (vSq b))) zwind mwind
  let ozone := s.read_band "ozone" size offset
  let surf_press := s.read_band "atm_press" size offset
  let jday := s.dateYday
  let landMask := s.read_bitmask size offset "l1_flags.LAND_OCEAN"
  let invMask := s.read_bitmask size offset
    "(l1_flags.INVALID) OR (l1_flags.SUSPECT) OR (l1_flags.COSMETIC)"
  let bitmask := zip2With merisBitmaskCell landMask invMask
  .ok { offset, size, bands, latitude, longitude, sza, vza, saa, vaa,
        F0, wavelen, Ltoa, wind_speed, ozone, surf_press, jday, bitmask }

/-- Embedding of the generator `Level1_MERIS.blocks`: one `read_block`
per tile of the blocking strategy, in tile order. -/
def Level1_MERIS.blocksMeth (s : Level1_MERIS) (bands_read : List Nat) :
    List (Except PyErr BlockM) :=
  (blocks s.height s.width s.blocksize).map fun t =>
    s.read_block t.2 t.1 bands_read

/-- Argument triple of one `read_block` call. -/
abbrev ReadArgs := (Nat × Nat) × (Nat × Nat) × List Nat

/-- One tabular `read_block` call as a state transformer: the method body
contains no assignment to `self`, so the post-state is the pre-state. -/
def readBlockStA (s : Level1_ASCII) (a : ReadArgs) :
    Except PyErr BlockA × Level1_ASCII :=
  (s.read_block a.1 a.2.1 a.2.2, s)

/-- A sequence of tabular `read_block` calls against one source, each
running in the state the previous call left behind. -/
def runReadsA : Level1_ASCII → List ReadArgs → List (Except PyErr BlockA)
  | _, [] => []
  | s, a :: rest => (readBlockStA s a).1 :: runReadsA (readBlockStA s a).2 rest

/-- One binary-format `read_block` call as a state transformer: the
method body contains no assignment to `self`, so the post-state is the
pre-state. -/
def readBlockStM (s : Level1_MERIS) (a : ReadArgs) :
    Except PyErr BlockM × Level1_MERIS :=
  (s.read_block a.1 a.2.1 a.2.2, s)

/-- A sequence of binary-format `read_block` calls against one source. -/
def runReadsM : Level1_MERIS → List ReadArgs → List (Except PyErr BlockM)
  | _, [] => []
  | s, a :: rest => (readBlockStM s a).1 :: runReadsM (readBlockStM s a).2 rest

/-- Concrete tabular fixture: a SeaWiFS-style source of shape `(3, 1)`
(three rows, `square = 1`), one requested band 412 stored in `TOAR_01`. -/
def srcA : Level1_ASCII :=
  { sensor := some "SeaWiFS", TOAR := "radiance", headers := headers_default,
    relative_azimuth := true, wind_module := true,
    band_names := [(412, "TOAR_01")],
    F0 := [], detector_wavelength := [], F0_band_names := [], wav_band_names := [],
    csv := [("LAT", [some 1, some 2, some 3]),
            ("LON", [some 4, some 5, some 6]),
            ("SUN_ZENITH", [some 10, some 11, some 12]),
            ("VIEW_ZENITH", [some 20, some 21, some 22]),
            ("DELTA_AZIMUTH", [some 30, some 31, some 32]),
            ("OZONE_ECMWF", [some 300, some 301, some 302]),
            ("WINDM", [some 5, some 6, some 7]),
            ("PRESS_ECMWF", [some 1013, some 1014, some 1015]),
            ("TOAR_01", [some 7, some 8, some 9])],
    height := 3, width := 1, blocksize := 2,
    dates := [(100, 4), (101, 4), (102, 4)] }

/-- Concrete tabular fixture for the invalid-flag analysis: one pixel
whose solar zenith is NaN while its relative azimuth and TOA signal are
ordinary. -/
def srcC5 : Level1_ASCII :=
  { sensor := some "SeaWiFS", TOAR := "radiance", headers := headers_default,
    relative_azimuth := true, wind_module := true,
    band_names := [(412, "TOAR_01")],
    F0 := [], detector_wavelength := [], F0_band_names := [], wav_band_names := [],
    csv := [("LAT", [some 1]), ("LON", [some 4]),
            ("SUN_ZENITH", [none]), ("VIEW_ZENITH", [some 20]),
            ("DELTA_AZIMUTH", [some 30]), ("OZONE_ECMWF", [some 300]),
            ("WINDM", [some 5]), ("PRESS_ECMWF", [some 1013]),
            ("TOAR_01", [some 2])],
    height := 1, width := 1, blocksize := 100,
    dates := [(100, 4)] }

/-- Concrete tabular fixture of the MERIS family (detector-index effect):
shape `(1, 2)`, detector indices `[[0, 1]]`, two-detector smile tables. -/
def srcC4 : Level1_ASCII :=
  { sensor := some "MERIS", TOAR := "radiance", headers := headers_default,
    relative_azimuth := true, wind_module := true,
    band_names := [(443, "TOAR_01")],
    F0 := [("E0_band0", [some 96, some 98])],
    detector_wavelength := [("lam_band0", [some 442, some 443])],
    F0_band_names := [(443, "E0_band0")], wav_band_names := [(443, "lam_band0")],
    csv := [("LAT", [some 1, some 2]), ("LON", [some 4, some 5]),
            ("SUN_ZENITH", [some 10, some 11]), ("VIEW_ZENITH", [some 20, some 21]),
            ("DELTA_AZIMUTH", [some 30, some 31]), ("OZONE_ECMWF", [some 300, some 301]),
            ("WINDM", [some 5, some 6]), ("PRESS_ECMWF", [some 1013, some 1014]),
            ("DETECTOR", [some 0, some 1]),
            ("TOAR_01", [some 7, some 8])],
    height := 1, width := 2, blocksize := 100,
    dates := [(100, 4), (101, 4)] }

/-- Concrete binary-product fixture: a 2×2 scene. -/
def prodM : EprProduct :=
  { sceneWidth := 2, sceneHeight := 2,
    bandData := fun name =>
      if name = "detector_index" then [[some 0, some 1], [some 1, some 0]]
      else if name = "Radiance_1" then [[some 10, some 20], [some 30, some 40]]
      else [[some 1, some 2], [some 3, some 4]],
    flagData := fun bmexpr =>
      if bmexpr = "l1_flags.LAND_OCEAN" then [[true, false], [false, true]]
      else [[false, false], [true, false]] }

/-- Concrete binary-format fixture over `prodM`, full sub-window. -/
def srcM : Level1_MERIS :=
  { prod := prodM, width := 2, totalheight := 2, blocksize := 1, sline := 0,
    height := 2, band_names := MERIS_band_names,
    F0 := [("E0_band0", [some 100, some 101])],
    F0_band_names := MERIS_F0_band_names, wav_band_names := MERIS_wav_band_names,
    detector_wavelength := [("lam_band0", [some 441, some 442])],
    dateYday := 152 }

/-- A synthetic `n`-row CSV file holding every column the default
header mapping requests for a one-band source. -/
def mkFile (n : Nat) : CsvData :=
  { columns := ["LAT", "LON", "TIME", "OZONE_ECMWF", "PRESS_ECMWF", "SUN_ZENITH",
                "VIEW_ZENITH", "DELTA_AZIMUTH", "WINDM", "TOAR_01"].map
      (fun c => (c, (List.range n).map fun i => some (i : ℚ))),
    nrows := n,
    dates := (List.range n).map fun i => (i + 1, 1) }

lemma pred_mul_add {n B : Nat} (hn : 0 < n) : n * B = (n - 1) * B + B := by
  have h : n - 1 + 1 = n := Nat.succ_pred_eq_of_pos hn
  calc n * B = (n - 1 + 1) * B := by rw [h]
  _ = (n - 1) * B + B := by ring

lemma nblocksOf_pos {H B : Nat} (hB : 0 < B) (hH : 0 < H) : 0 < nblocksOf H B := by
  show 1 ≤ nblocksOf H B
  unfold nblocksOf
  rw [Nat.le_div_iff_mul_le hB]
  omega

lemma nblocksOf_zero {B : Nat} (hB : 0 < B) : nblocksOf 0 B = 0 := by
  unfold nblocksOf
  rw [Nat.div_eq_of_lt]
  omega

lemma nblocksOf_pred_mul_lt {H B : Nat} (hB : 0 < B) (hH : 0 < H) :
    (nblocksOf H B - 1) * B < H := by
  by_contra hcon
  push_neg at hcon
  have h1 : 0 < nblocksOf H B := nblocksOf_pos hB hH
  have h2 : (H + B - 1) / B < nblocksOf H B := by
    rw [Nat.div_lt_iff_lt_mul hB]
    have := pred_mul_add (B := B) h1
    omega
  exact absurd h2 (by unfold nblocksOf; omega)

lemma le_nblocksOf_mul {H B : Nat} (hB : 0 < B) : H ≤ nblocksOf H B * B := by
  by_contra hcon
  push_neg at hcon
  have h2 : nblocksOf H B + 1 ≤ (H + B - 1) / B := by
    rw [Nat.le_div_iff_mul_le hB]
    ring_nf
    omega
  exact absurd h2 (by unfold nblocksOf; omega)

lemma blocks_length (H W B : Nat) : (blocks H W B).length = nblocksOf H B := by
  simp [blocks]

lemma blocks_get (H W B : Nat) {i : Nat} (hi : i < (blocks H W B).length) :
    (blocks H W B).get ⟨i, hi⟩ =
      ((i * B, 0),
       (if i = nblocksOf H B - 1 then H - (nblocksOf H B - 1) * B else B, W)) := by
  simp [blocks]

/-- The per-tile height written with `min`, as the specification states it. -/
lemma blocks_get_min (H W B : Nat) (hB : 0 < B) {i : Nat}
    (hi : i < (blocks H W B).length) :
    (blocks H W B).get ⟨i, hi⟩ = ((i * B, 0), (min B (H - i * B), W)) := by
  rw [blocks_get]
  have hlen : (blocks H W B).length = nblocksOf H B := blocks_length H W B
  rw [hlen] at hi
  have hH : 0 < H := by
    by_contra hH0
    push_neg at hH0
    interval_cases H
    rw [nblocksOf_zero hB] at hi
    omega
  rcases Nat.lt_or_ge i (nblocksOf H B - 1) with hlt | hge
  · have hne : i ≠ nblocksOf H B - 1 := Nat.ne_of_lt hlt
    have hstep : (i + 1) * B ≤ (nblocksOf H B - 1) * B :=
      Nat.mul_le_mul_right B (by omega)
    have hlast := nblocksOf_pred_mul_lt hB hH
    have : B ≤ H - i * B := by
      have : (i + 1) * B < H := lt_of_le_of_lt hstep hlast
      ring_nf at this ⊢
      omega
    simp [hne, Nat.min_eq_left this]
  · have heq : i = nblocksOf H B - 1 := by omega
    subst heq
    have hub := le_nblocksOf_mul (H := H) hB
    have hlast := nblocksOf_pred_mul_lt hB hH
    have hpos := nblocksOf_pos hB hH
    have hmul := pred_mul_add (B := B) hpos
    have : H - (nblocksOf H B - 1) * B ≤ B := by omega
    simp [Nat.min_eq_right this]

lemma range_ite_sum (H B m : Nat) (hlt : m * B < H) :
    ((List.range (m + 1)).map
        (fun i => if i = m + 1 - 1 then H - (m + 1 - 1) * B else B)).sum = H := by
  rw [List.range_succ, List.map_append, List.sum_append]
  have hbody : ∀ i ∈ List.range m,
      (fun i => if i = m + 1 - 1 then H - (m + 1 - 1) * B else B) i = B := by
    intro i hi
    rw [List.mem_range] at hi
    simp only [Nat.add_sub_cancel]
    rw [if_neg (by omega)]
  rw [List.map_congr_left hbody]
  have hconst : (List.range m).map (fun _ => B) = List.replicate m B := by
    rw [List.map_const']
    simp
  rw [hconst, List.sum_replicate]
  simp [smul_eq_mul]
  omega

lemma blocks_sum (H W B : Nat) (hB : 0 < B) :
    ((blocks H W B).map (fun t => t.2.1)).sum = H := by
  rcases Nat.eq_zero_or_pos H with hH | hH
  · subst hH
    simp [blocks, nblocksOf_zero hB]
  · have hpos := nblocksOf_pos hB hH
    obtain ⟨m, hm⟩ : ∃ m, nblocksOf H B = m + 1 := by
      refine ⟨nblocksOf H B - 1, ?_⟩
      omega
    have hmap : (blocks H W B).map (fun t => t.2.1) =
        (List.range (nblocksOf H B)).map
          (fun i => if i = nblocksOf H B - 1
                    then H - (nblocksOf H B - 1) * B else B) := by
      unfold blocks
      rw [List.map_map]
      rfl
    rw [hmap, hm]
    have hlast := nblocksOf_pred_mul_lt hB hH
    rw [hm] at hlast
    simp only [Nat.add_sub_cancel] at hlast
    exact range_ite_sum H B m hlast

/-- C1: the blocks iteration of `Level1_MERIS.blocks` and
`Level1_ASCII.blocks` partitions the active height `H` into
`ceil(H/B)` row-major tiles: tile `i` has offset `(i*B, 0)` and size
`(min B (H - i*B), W)`; the tile heights sum to `H`; offsets are
contiguous (hence strictly increasing); no tile has zero rows; and
`H = 0` yields zero tiles. -/
theorem C1_blocks_tiling (H W B : Nat) (hB : 0 < B) :
    (blocks H W B).length = (H + B - 1) / B ∧
    (∀ i, (hi : i < (blocks H W B).length) →
      (blocks H W B).get ⟨i, hi⟩ = ((i * B, 0), (min B (H - i * B), W))) ∧
    ((blocks H W B).map (fun t => t.2.1)).sum = H ∧
    (∀ i, (hi : i < (blocks H W B).length) → (hi2 : i + 1 < (blocks H W B).length) →
      ((blocks H W B).get ⟨i + 1, hi2⟩).1.1 =
        ((blocks H W B).get ⟨i, hi⟩).1.1 + ((blocks H W B).get ⟨i, hi⟩).2.1) ∧
    (∀ i, (hi : i < (blocks H W B).length) → 0 < ((blocks H W B).get ⟨i, hi⟩).2.1) ∧
    (H = 0 → blocks H W B = []) := by
  refine ⟨blocks_length H W B, fun i hi => blocks_get_min H W B hB hi,
          blocks_sum H W B hB, ?_, ?_, ?_⟩
  · intro i hi hi2
    rw [blocks_get_min H W B hB hi, blocks_get_min H W B hB hi2]
    have hlen : (blocks H W B).length = nblocksOf H B := blocks_length H W B
    rw [hlen] at hi hi2
    have hH : 0 < H := by
      by_contra hH0
      push_neg at hH0
      interval_cases H
      rw [nblocksOf_zero hB] at hi
      omega
    have hstep : (i + 1) * B ≤ (nblocksOf H B - 1) * B :=
      Nat.mul_le_mul_right B (by omega)
    have hlast := nblocksOf_pred_mul_lt hB hH
    have hbig : B ≤ H - i * B := by
      have : (i + 1) * B < H := lt_of_le_of_lt hstep hlast
      ring_nf at this ⊢
      omega
    simp [Nat.min_eq_left hbig]
    ring
  · intro i hi
    rw [blocks_get_min H W B hB hi]
    have hlen : (blocks H W B).length = nblocksOf H B := blocks_length H W B
    rw [hlen] at hi
    have hH : 0 < H := by
      by_contra hH0
      push_neg at hH0
      interval_cases H
      rw [nblocksOf_zero hB] at hi
      omega
    have hlast := nblocksOf_pred_mul_lt hB hH
    have : i * B ≤ (nblocksOf H B - 1) * B := Nat.mul_le_mul_right B (by omega)
    simp only [gt_iff_lt, lt_min_iff]
    omega
  · intro hH
    subst hH
    simp [blocks, nblocksOf_zero hB]

/-- Witness for C1 at `H = 5`, `W = 3`, `B = 2`: three tiles whose
heights sum to 5. -/
theorem C1_blocks_tiling_witness :
    0 < 2 ∧ (blocks 5 3 2).length = (5 + 2 - 1) / 2 ∧
      ((blocks 5 3 2).map (fun t => t.2.1)).sum = 5 :=
  ⟨by decide, (C1_blocks_tiling 5 3 2 (by decide)).1,
   (C1_blocks_tiling 5 3 2 (by decide)).2.2.1⟩

lemma ebind_ok {α β : Type} (a : α) (f : α → Except PyErr β) :
    (Except.ok a >>= f) = f a := rfl

lemma ebind_err {α β : Type} (e : PyErr) (f : α → Except PyErr β) :
    ((Except.error e : Except PyErr α) >>= f) = Except.error e := rfl

lemma epure_eq {α : Type} (a : α) : (pure a : Except PyErr α) = Except.ok a := rfl

lemma except_ok_of_bind {α β : Type} {e : Except PyErr α} {f : α → Except PyErr β}
    {b : β} (h : (e >>= f) = .ok b) : ∃ a, e = .ok a ∧ f a = .ok b := by
  cases e with
  | error err => rw [ebind_err] at h; exact Except.noConfusion h
  | ok a => exact ⟨a, rfl, h⟩

lemma mapM_ok_length {γ α : Type} {f : γ → Except PyErr α} :
    ∀ {xs : List γ} {ls : List α}, xs.mapM f = .ok ls → ls.length = xs.length := by
  intro xs
  induction xs with
  | nil =>
    intro ls h
    rw [List.mapM_nil, epure_eq] at h
    cases h
    rfl
  | cons a as ih =>
    intro ls h
    rw [List.mapM_cons] at h
    obtain ⟨b, hb, h⟩ := except_ok_of_bind h
    obtain ⟨bs, hbs, h⟩ := except_ok_of_bind h
    rw [epure_eq] at h
    cases h
    simp [ih hbs]

lemma mapM_ok_getElem {γ α : Type} {f : γ → Except PyErr α} :
    ∀ {xs : List γ} {ls : List α}, xs.mapM f = .ok ls → ∀ i, i < xs.length →
      ∃ x l, xs[i]? = some x ∧ ls[i]? = some l ∧ f x = .ok l := by
  intro xs
  induction xs with
  | nil =>
    intro ls h i hi
    simp at hi
  | cons a as ih =>
    intro ls h i hi
    rw [List.mapM_cons] at h
    obtain ⟨b, hb, h⟩ := except_ok_of_bind h
    obtain ⟨bs, hbs, h⟩ := except_ok_of_bind h
    rw [epure_eq] at h
    cases h
    cases i with
    | zero => exact ⟨a, b, by simp, by simp, hb⟩
    | succ j =>
      have hj := ih hbs j (by simpa using hi)
      simpa using hj

lemma mapM_ok_map {γ α : Type} {f g : γ → Except PyErr α} {w : α → α}
    (hfg : ∀ x L, f x = .ok L → g x = .ok (w L)) :
    ∀ {xs : List γ} {ls : List α}, xs.mapM f = .ok ls →
      xs.mapM g = .ok (ls.map w) := by
  intro xs
  induction xs with
  | nil =>
    intro ls h
    rw [List.mapM_nil, epure_eq] at h
    cases h
    rfl
  | cons a as ih =>
    intro ls h
    rw [List.mapM_cons] at h
    obtain ⟨b, hb, h⟩ := except_ok_of_bind h
    obtain ⟨bs, hbs, h⟩ := except_ok_of_bind h
    rw [epure_eq] at h
    cases h
    rw [List.mapM_cons, hfg a b hb, ebind_ok, ih hbs, ebind_ok]
    rfl

lemma reshape2_ok_iff {α : Type} {l : List α} {y x : Nat} {A : List (List α)} :
    reshape2 l y x = .ok A ↔ l.length = y * x ∧ A = chunkRows l y x := by
  unfold reshape2
  split_ifs with hc
  · simp [hc, eq_comm]
  · simp [hc]

lemma chunkRows_length {α : Type} (l : List α) (y x : Nat) :
    (chunkRows l y x).length = y := by
  simp [chunkRows]

lemma chunkRows_getElem {α : Type} {l : List α} {y x r : Nat} (hr : r < y) :
    (chunkRows l y x)[r]? = some ((l.drop (r * x)).take x) := by
  simp [chunkRows, hr]

lemma reshape2_ok_shape {α : Type} {l : List α} {y x : Nat} {A : List (List α)}
    (h : reshape2 l y x = .ok A) : shape2 A y x := by
  obtain ⟨hl, hA⟩ := reshape2_ok_iff.mp h
  subst hA
  refine ⟨chunkRows_length l y x, ?_⟩
  intro row hrow
  rw [chunkRows] at hrow
  simp only [List.mem_map, List.mem_range] at hrow
  obtain ⟨r, hr, rfl⟩ := hrow
  have hx : r * x + x ≤ y * x := by
    have : (r + 1) * x ≤ y * x := Nat.mul_le_mul_right x (by omega)
    ring_nf at this ⊢
    omega
  simp [List.length_take, List.length_drop, hl]
  omega

lemma reshape2_cell {l : List Val} {y x : Nat} {A : Arr2}
    (h : reshape2 l y x = .ok A) {r c : Nat} (hr : r < y) (hc : c < x) :
    cell2 A r c = l[r * x + c]?.getD none := by
  obtain ⟨hl, hA⟩ := reshape2_ok_iff.mp h
  subst hA
  unfold cell2
  rw [chunkRows_getElem hr]
  simp only [Option.bind_eq_bind, Option.some_bind]
  rw [List.getElem?_take_of_lt hc, List.getElem?_drop]

lemma take_min_length {α : Type} {l : List α} {n : Nat} (h : n ≤ l.length) :
    (l.take n).length = n := by
  simp [List.length_take]
  omega

lemma drop_take_eq {α : Type} {l : List α} {m N : Nat} (h : m ≤ N) :
    (l.take N).drop m = (l.drop m).take (N - m) := by
  have hid := List.take_drop (α := α) m (N - m) l
  rw [Nat.add_sub_cancel' h] at hid
  exact hid.symm

lemma chunkRows_take {α : Type} {l : List α} {H x : Nat} :
    chunkRows (l.take (H * x)) H x = chunkRows l H x := by
  unfold chunkRows
  apply List.map_congr_left
  intro r hr
  rw [List.mem_range] at hr
  have hrx : r * x ≤ H * x := Nat.mul_le_mul_right x (by omega)
  rw [drop_take_eq hrx, List.take_take]
  have hx : x ≤ H * x - r * x := by
    have h1 : (r + 1) * x ≤ H * x := Nat.mul_le_mul_right x (by omega)
    rw [Nat.succ_mul] at h1
    omega
  rw [Nat.min_eq_left hx]

lemma range_map_window {α : Type} (f : Nat → α) {H yoff ys : Nat}
    (hle : yoff + ys ≤ H) :
    window2 ((List.range H).map f) yoff ys = (List.range ys).map fun r => f (yoff + r) := by
  apply List.ext_getElem?
  intro i
  unfold window2
  rcases Nat.lt_or_ge i ys with hi | hi
  · rw [List.getElem?_take_of_lt hi, List.getElem?_drop]
    rw [List.getElem?_map, List.getElem?_map]
    rw [List.getElem?_range (by omega : yoff + i < H), List.getElem?_range hi]
    rfl
  · rw [List.getElem?_eq_none, List.getElem?_eq_none]
    · simp
      omega
    · simp
      omega

lemma pySlice_add {α : Type} (l : List α) (a n : Nat) :
    pySlice l a (a + n) = (l.drop a).take n := by
  unfold pySlice
  rw [drop_take_eq (Nat.le_add_right a n), Nat.add_sub_cancel_left]

lemma chunkRows_window {α : Type} {l : List α} {H x yoff ys : Nat}
    (hle : yoff + ys ≤ H) :
    chunkRows (pySlice l (yoff * x) ((yoff + ys) * x)) ys x
      = window2 (chunkRows l H x) yoff ys := by
  have hsplit : (yoff + ys) * x = yoff * x + ys * x := Nat.add_mul yoff ys x
  rw [hsplit, pySlice_add]
  unfold chunkRows
  rw [range_map_window _ hle]
  apply List.map_congr_left
  intro r hr
  rw [List.mem_range] at hr
  have hrx : r * x ≤ ys * x := Nat.mul_le_mul_right x (by omega)
  rw [drop_take_eq hrx, List.take_take]
  have hxx : x ≤ ys * x - r * x := by
    have h1 : (r + 1) * x ≤ ys * x := Nat.mul_le_mul_right x (by omega)
    rw [Nat.succ_mul] at h1
    omega
  rw [Nat.min_eq_left hxx, List.drop_drop]
  have harg : yoff * x + r * x = (yoff + r) * x := (Nat.add_mul yoff r x).symm
  rw [harg]

lemma slice_length_full {α : Type} {l : List α} {H x : Nat}
    (h : (pySlice l 0 (H * x)).length = H * x) : H * x ≤ l.length := by
  unfold pySlice at h
  rw [List.drop_zero] at h
  rw [List.length_take] at h
  omega

lemma col_window {α : Type} {l : List α} {H x yoff ys : Nat} {A : List (List α)}
    (hfull : reshape2 (pySlice l 0 (H * x)) H x = .ok A) (hle : yoff + ys ≤ H) :
    reshape2 (pySlice l (yoff * x) ((yoff + ys) * x)) ys x = .ok (window2 A yoff ys) := by
  obtain ⟨hl, hA⟩ := reshape2_ok_iff.mp hfull
  have hlen : H * x ≤ l.length := slice_length_full hl
  have hAeq : A = chunkRows l H x := by
    rw [hA]
    unfold pySlice
    rw [List.drop_zero]
    exact chunkRows_take
  rw [reshape2_ok_iff]
  constructor
  · have hsplit : (yoff + ys) * x = yoff * x + ys * x := Nat.add_mul yoff ys x
    rw [hsplit, pySlice_add]
    have hub : yoff * x + ys * x ≤ l.length := by
      have h1 : (yoff + ys) * x ≤ H * x := Nat.mul_le_mul_right x hle
      rw [Nat.add_mul] at h1
      omega
    rw [List.length_take, List.length_drop]
    omega
  · rw [hAeq, ← chunkRows_window hle]

lemma window2_shape2 {α : Type} {A : List (List α)} {H x yoff ys : Nat}
    (h : shape2 A H x) (hle : yoff + ys ≤ H) :
    shape2 (window2 A yoff ys) ys x := by
  obtain ⟨hlen, hrow⟩ := h
  constructor
  · unfold window2
    rw [List.length_take, List.length_drop]
    omega
  · intro r hr
    apply hrow
    unfold window2 at hr
    exact List.mem_of_mem_drop (List.mem_of_mem_take hr)

lemma stack3_shape (y x : Nat) (layers : List Arr2) :
    shape3 (stack3 y x layers) y x layers.length := by
  refine ⟨by simp [stack3], ?_⟩
  intro row hrow
  unfold stack3 at hrow
  simp only [List.mem_map, List.mem_range] at hrow
  obtain ⟨r, hr, rfl⟩ := hrow
  refine ⟨by simp, ?_⟩
  intro cs hcs
  simp only [List.mem_map, List.mem_range] at hcs
  obtain ⟨c, hc, rfl⟩ := hcs
  simp

lemma cell2_window {L : Arr2} {yoff ys r c : Nat} (hr : r < ys) :
    cell2 (window2 L yoff ys) r c = cell2 L (yoff + r) c := by
  unfold cell2 window2
  rw [List.getElem?_take_of_lt hr, List.getElem?_drop]

lemma stack3_window {y x yoff ys : Nat} {layers : List Arr2} (hle : yoff + ys ≤ y) :
    window2 (stack3 y x layers) yoff ys
      = stack3 ys x (layers.map fun L => window2 L yoff ys) := by
  unfold stack3
  rw [range_map_window _ hle]
  apply List.map_congr_left
  intro r hr
  rw [List.mem_range] at hr
  apply List.map_congr_left
  intro c hc
  rw [List.map_map]
  apply List.map_congr_left
  intro L hL
  show cell2 L (yoff + r) c = cell2 (window2 L yoff ys) r c
  rw [cell2_window hr]

lemma eta2 {A : Arr2} {y x : Nat} (h : shape2 A y x) :
    ((List.range y).map fun r => (List.range x).map fun c => cell2 A r c) = A := by
  obtain ⟨hlen, hrow⟩ := h
  apply List.ext_getElem?
  intro r
  rcases Nat.lt_or_ge r y with hr | hr
  · have hrA : r < A.length := by omega
    rw [List.getElem?_map, List.getElem?_range hr, List.getElem?_eq_getElem hrA]
    simp only [Option.map_some']
    congr 1
    have hrowlen : A[r].length = x := hrow _ (List.getElem_mem hrA)
    apply List.ext_getElem?
    intro c
    rcases Nat.lt_or_ge c x with hc | hc
    · have hcA : c < A[r].length := by omega
      rw [List.getElem?_map, List.getElem?_range hc]
      unfold cell2
      rw [List.getElem?_eq_getElem hrA]
      simp only [Option.map_some', Option.bind_eq_bind, Option.some_bind]
      rw [List.getElem?_eq_getElem hcA]
      rfl
    · rw [List.getElem?_eq_none (by simp; omega), List.getElem?_eq_none (by omega)]
  · rw [List.getElem?_eq_none (by simp; omega), List.getElem?_eq_none (by omega)]

lemma sliceBand_stack3 {y x i : Nat} {layers : List Arr2} {L : Arr2}
    (hL : layers[i]? = some L) (hshape : shape2 L y x) :
    sliceBand (stack3 y x layers) i = L := by
  unfold sliceBand stack3
  rw [List.map_map]
  have hstep : ∀ r ∈ List.range y,
      (((List.range x).map fun c => layers.map fun M => cell2 M r c).map
        fun cs => cs[i]?.getD none) = (List.range x).map fun c => cell2 L r c := by
    intro r hrmem
    rw [List.map_map]
    apply List.map_congr_left
    intro c hcmem
    show ((layers.map fun M => cell2 M r c)[i]?).getD none = cell2 L r c
    rw [List.getElem?_map, hL]
    rfl
  calc ((List.range y).map fun r =>
          (((List.range x).map fun c => layers.map fun M => cell2 M r c).map
            fun cs => cs[i]?.getD none))
      = (List.range y).map fun r => (List.range x).map fun c => cell2 L r c := by
        apply List.map_congr_left
        intro r hrmem
        exact hstep r hrmem
    _ = L := eta2 hshape

lemma zip2With_shape {α β γ : Type} {A : List (List α)} {B : List (List β)}
    {f : α → β → γ} {y x : Nat} (hA : shape2 A y x) (hB : shape2 B y x) :
    shape2 (zip2With f A B) y x := by
  obtain ⟨hAl, hAr⟩ := hA
  obtain ⟨hBl, hBr⟩ := hB
  constructor
  · unfold zip2With
    rw [List.length_zipWith]
    omega
  · intro row hrow
    unfold zip2With at hrow
    rw [List.mem_iff_getElem?] at hrow
    obtain ⟨i, hi⟩ := hrow
    rw [List.getElem?_zipWith] at hi
    cases hA2 : A[i]? with
    | none => rw [hA2] at hi; simp at hi
    | some ra =>
      cases hB2 : B[i]? with
      | none => rw [hA2, hB2] at hi; simp at hi
      | some rb =>
        rw [hA2, hB2] at hi
        simp only [Option.map_some'] at hi
        cases hi
        rw [List.length_zipWith]
        have h1 : ra.length = x := hAr _ (List.getElem?_mem hA2)
        have h2 : rb.length = x := hBr _ (List.getElem?_mem hB2)
        omega

lemma map_shape2 {α β : Type} {A : List (List α)} {f : α → β} {y x : Nat}
    (hA : shape2 A y x) : shape2 (A.map fun row => row.map f) y x := by
  obtain ⟨hl, hr⟩ := hA
  constructor
  · simp [hl]
  · intro row hrow
    simp only [List.mem_map] at hrow
    obtain ⟨ra, hra, rfl⟩ := hrow
    simp [hr ra hra]

lemma stack3_sliceBand_shape (y x i : Nat) (layers : List Arr2) :
    shape2 (sliceBand (stack3 y x layers) i) y x := by
  unfold sliceBand
  have h3 := stack3_shape y x layers
  obtain ⟨hl, hr⟩ := h3
  constructor
  · simp [hl]
  · intro row hrow
    simp only [List.mem_map] at hrow
    obtain ⟨ra, hra, rfl⟩ := hrow
    simp [(hr ra hra).1]

lemma get_field_ok_shape {s : Level1_ASCII} {fname : String} {sl size : Nat × Nat}
    {A : Arr2} (h : s.get_field fname sl size = .ok A) : shape2 A size.1 size.2 := by
  unfold Level1_ASCII.get_field at h
  obtain ⟨cn, hcn, h⟩ := except_ok_of_bind h
  obtain ⟨col, hcol, h⟩ := except_ok_of_bind h
  exact reshape2_ok_shape h

lemma slOf_tile (yoff ys x : Nat) :
    slOf (yoff, 0) (ys, x) = (yoff * x, (yoff + ys) * x) := rfl

lemma get_field_window {s : Level1_ASCII} {fname : String} {H x yoff ys : Nat}
    {A : Arr2} (hfull : s.get_field fname (slOf (0, 0) (H, x)) (H, x) = .ok A)
    (hle : yoff + ys ≤ H) :
    s.get_field fname (slOf (yoff, 0) (ys, x)) (ys, x) = .ok (window2 A yoff ys) := by
  unfold Level1_ASCII.get_field at hfull ⊢
  obtain ⟨cn, hcn, hfull⟩ := except_ok_of_bind hfull
  obtain ⟨col, hcol, hfull⟩ := except_ok_of_bind hfull
  rw [hcn, ebind_ok, hcol, ebind_ok]
  simp only [slOf, Nat.zero_mul, Nat.zero_add] at hfull ⊢
  exact col_window hfull hle

lemma toaLayer_ok_shape {s : Level1_ASCII} {sl size : Nat × Nat} {band : Nat}
    {A : Arr2} (h : s.toaLayer sl size band = .ok A) : shape2 A size.1 size.2 := by
  unfold Level1_ASCII.toaLayer at h
  obtain ⟨cn, hcn, h⟩ := except_ok_of_bind h
  obtain ⟨col, hcol, h⟩ := except_ok_of_bind h
  exact reshape2_ok_shape h

lemma toaLayer_window {s : Level1_ASCII} {band : Nat} {H x yoff ys : Nat}
    {A : Arr2} (hfull : s.toaLayer (slOf (0, 0) (H, x)) (H, x) band = .ok A)
    (hle : yoff + ys ≤ H) :
    s.toaLayer (slOf (yoff, 0) (ys, x)) (ys, x) band = .ok (window2 A yoff ys) := by
  unfold Level1_ASCII.toaLayer at hfull ⊢
  obtain ⟨cn, hcn, hfull⟩ := except_ok_of_bind hfull
  obtain ⟨col, hcol, hfull⟩ := except_ok_of_bind hfull
  rw [hcn, ebind_ok, hcol, ebind_ok]
  simp only [slOf, Nat.zero_mul, Nat.zero_add] at hfull ⊢
  exact col_window hfull hle

lemma readA_inv {s : Level1_ASCII} {size offset : Nat × Nat} {bands : List Nat}
    {b : BlockA} (h : s.read_block size offset bands = .ok b) :
    ∃ la lo sz vz az tls rl wf jd mo raaA oz ws sp,
      s.get_field "LAT" (slOf offset size) size = .ok la ∧
      s.get_field "LON" (slOf offset size) size = .ok lo ∧
      s.get_field "SZA" (slOf offset size) size = .ok sz ∧
      s.get_field "VZA" (slOf offset size) size = .ok vz ∧
      s.azStep (slOf offset size) size = .ok az ∧
      bands.mapM (s.toaLayer (slOf offset size) size) = .ok tls ∧
      s.toarStep (stack3 size.1 size.2 tls) = .ok rl ∧
      s.smileStep (slOf offset size) size bands = .ok wf ∧
      reshape2 (pySlice (s.dates.map Prod.fst) (slOf offset size).1
        (slOf offset size).2) size.1 size.2 = .ok jd ∧
      reshape2 (pySlice (s.dates.map Prod.snd) (slOf offset size).1
        (slOf offset size).2) size.1 size.2 = .ok mo ∧
      raaView az.1 az.2.1 az.2.2 = .ok raaA ∧
      s.get_field "OZONE" (slOf offset size) size = .ok oz ∧
      s.windStep (slOf offset size) size = .ok ws ∧
      s.get_field "SURFACE_PRESSURE" (slOf offset size) size = .ok sp ∧
      b = { offset := offset, size := size, bands := bands,
            wavelen := wf.1, latitude := la, longitude := lo, sza := sz, vza := vz,
            raaStored := az.1, saa := az.2.1, vaa := az.2.2,
            Rtoa := rl.1, Ltoa := rl.2, F0 := wf.2,
            jday := jd, month := mo,
            bitmask := (zip2With invalidCell raaA
              (sliceBand (stack3 size.1 size.2 tls) 0)).map
              (fun row => row.map asciiBitmaskCell),
            ozone := oz, wind_speed := ws, surf_press := sp } := by
  unfold Level1_ASCII.read_block at h
  obtain ⟨la, hla, h⟩ := except_ok_of_bind h
  obtain ⟨lo, hlo, h⟩ := except_ok_of_bind h
  obtain ⟨sz, hsz, h⟩ := except_ok_of_bind h
  obtain ⟨vz, hvz, h⟩ := except_ok_of_bind h
  obtain ⟨az, haz, h⟩ := except_ok_of_bind h
  obtain ⟨tls, htls, h⟩ := except_ok_of_bind h
  obtain ⟨rl, hrl, h⟩ := except_ok_of_bind h
  obtain ⟨wf, hwf, h⟩ := except_ok_of_bind h
  obtain ⟨jd, hjd, h⟩ := except_ok_of_bind h
  obtain ⟨mo, hmo, h⟩ := except_ok_of_bind h
  obtain ⟨raaA, hraa, h⟩ := except_ok_of_bind h
  obtain ⟨oz, hoz, h⟩ := except_ok_of_bind h
  obtain ⟨ws, hws, h⟩ := except_ok_of_bind h
  obtain ⟨sp, hsp, h⟩ := except_ok_of_bind h
  cases h
  exact ⟨la, lo, sz, vz, az, tls, rl, wf, jd, mo, raaA, oz, ws, sp,
    hla, hlo, hsz, hvz, haz, htls, hrl, hwf, hjd, hmo, hraa, hoz, hws, hsp, rfl⟩

lemma readA_construct {s : Level1_ASCII} {size offset : Nat × Nat} {bands : List Nat}
    {la lo sz vz : Arr2} {az : Option Arr2 × Option Arr2 × Option Arr2}
    {tls : List Arr2} {rl : Option Arr3 × Option Arr3} {wf : Arr3 × Option Arr3}
    {jd mo : List (List Nat)} {raaA oz ws sp : Arr2}
    (hla : s.get_field "LAT" (slOf offset size) size = .ok la)
    (hlo : s.get_field "LON" (slOf offset size) size = .ok lo)
    (hsz : s.get_field "SZA" (slOf offset size) size = .ok sz)
    (hvz : s.get_field "VZA" (slOf offset size) size = .ok vz)
    (haz : s.azStep (slOf offset size) size = .ok az)
    (htls : bands.mapM (s.toaLayer (slOf offset size) size) = .ok tls)
    (hrl : s.toarStep (stack3 size.1 size.2 tls) = .ok rl)
    (hwf : s.smileStep (slOf offset size) size bands = .ok wf)
    (hjd : reshape2 (pySlice (s.dates.map Prod.fst) (slOf offset size).1
      (slOf offset size).2) size.1 size.2 = .ok jd)
    (hmo : reshape2 (pySlice (s.dates.map Prod.snd) (slOf offset size).1
      (slOf offset size).2) size.1 size.2 = .ok mo)
    (hraa : raaView az.1 az.2.1 az.2.2 = .ok raaA)
    (hoz : s.get_field "OZONE" (slOf offset size) size = .ok oz)
    (hws : s.windStep (slOf offset size) size = .ok ws)
    (hsp : s.get_field "SURFACE_PRESSURE" (slOf offset size) size = .ok sp) :
    s.read_block size offset bands =
      .ok { offset := offset, size := size, bands := bands,
            wavelen := wf.1, latitude := la, longitude := lo, sza := sz, vza := vz,
            raaStored := az.1, saa := az.2.1, vaa := az.2.2,
            Rtoa := rl.1, Ltoa := rl.2, F0 := wf.2,
            jday := jd, month := mo,
            bitmask := (zip2With invalidCell raaA
              (sliceBand (stack3 size.1 size.2 tls) 0)).map
              (fun row => row.map asciiBitmaskCell),
            ozone := oz, wind_speed := ws, surf_press := sp } := by
  unfold Level1_ASCII.read_block
  simp only [hla, hlo, hsz, hvz, haz, htls, hrl, hwf, hjd, hmo, hraa, hoz, hws,
    hsp, ebind_ok]

lemma azStep_inv {s : Level1_ASCII} {sl size : Nat × Nat}
    {az : Option Arr2 × Option Arr2 × Option Arr2}
    (h : s.azStep sl size = .ok az) :
    (∃ r, s.relative_azimuth = true ∧ s.get_field "RAA" sl size = .ok r ∧
      az = (some r, none, none)) ∨
    (∃ sa va, s.relative_azimuth = false ∧ s.get_field "SAA" sl size = .ok sa ∧
      s.get_field "VAA" sl size = .ok va ∧ az = (none, some sa, some va)) := by
  unfold Level1_ASCII.azStep at h
  cases hrel : s.relative_azimuth with
  | true =>
    rw [hrel] at h
    simp only [if_true] at h
    obtain ⟨r, hr, h⟩ := except_ok_of_bind h
    rw [epure_eq] at h
    cases h
    exact Or.inl ⟨r, rfl, hr, rfl⟩
  | false =>
    rw [hrel] at h
    simp only [Bool.false_eq_true, if_false] at h
    obtain ⟨sa, hsa, h⟩ := except_ok_of_bind h
    obtain ⟨va, hva, h⟩ := except_ok_of_bind h
    rw [epure_eq] at h
    cases h
    exact Or.inr ⟨sa, va, rfl, hsa, hva, rfl⟩

lemma toarStep_inv {s : Level1_ASCII} {TOA : Arr3} {rl : Option Arr3 × Option Arr3}
    (h : s.toarStep TOA = .ok rl) :
    (s.TOAR = "reflectance" ∧ rl = (some TOA, none)) ∨
    (s.TOAR = "radiance" ∧ rl = (none, some TOA)) := by
  unfold Level1_ASCII.toarStep at h
  split_ifs at h with h1 h2
  · rw [epure_eq] at h
    cases h
    exact Or.inl ⟨h1, rfl⟩
  · rw [epure_eq] at h
    cases h
    exact Or.inr ⟨h2, rfl⟩

lemma windStep_inv {s : Level1_ASCII} {sl size : Nat × Nat} {ws : Arr2}
    (h : s.windStep sl size = .ok ws) :
    (s.wind_module = true ∧ s.get_field "WIND" sl size = .ok ws) ∨
    (∃ zw mw, s.wind_module = false ∧ s.get_field "ZONAL_WIND" sl size = .ok zw ∧
      s.get_field "MERID_WIND" sl size = .ok mw ∧
      ws = zip2With (fun a b => vSqrt (vAdd (vSq a) (vSq b))) zw mw) := by
  unfold Level1_ASCII.windStep at h
  cases hrel : s.wind_module with
  | true =>
    rw [hrel] at h
    simp only [if_true] at h
    exact Or.inl ⟨rfl, h⟩
  | false =>
    rw [hrel] at h
    simp only [Bool.false_eq_true, if_false] at h
    obtain ⟨zw, hzw, h⟩ := except_ok_of_bind h
    obtain ⟨mw, hmw, h⟩ := except_ok_of_bind h
    rw [epure_eq] at h
    cases h
    exact Or.inr ⟨zw, mw, rfl, hzw, hmw, rfl⟩

lemma detStep_inv {s : Level1_ASCII} {sl size : Nat × Nat} {di : List (List Int)}
    (h : s.detStep sl size = .ok di) :
    ∃ dname dcol di2, pyGet s.headers "DETECTOR_INDEX" = .ok dname ∧
      pyGet s.csv dname = .ok dcol ∧
      reshape2 (pySlice dcol sl.1 sl.2) size.1 size.2 = .ok di2 ∧
      di = di2.map fun row => row.map vToInt := by
  unfold Level1_ASCII.detStep at h
  obtain ⟨dname, hdn, h⟩ := except_ok_of_bind h
  obtain ⟨dcol, hdc, h⟩ := except_ok_of_bind h
  obtain ⟨di2, hdi2, h⟩ := except_ok_of_bind h
  rw [epure_eq] at h
  cases h
  exact ⟨dname, dcol, di2, hdn, hdc, hdi2, rfl⟩

lemma smileStep_inv {s : Level1_ASCII} {sl size : Nat × Nat} {bands : List Nat}
    {wf : Arr3 × Option Arr3} (h : s.smileStep sl size bands = .ok wf) :
    (∃ di f0Layers wavLayers, isMerisFamily s.sensor = true ∧
      s.detStep sl size = .ok di ∧
      bands.mapM (lookupLayer s.F0 s.F0_band_names di) = .ok f0Layers ∧
      bands.mapM (lookupLayer s.detector_wavelength s.wav_band_names di) = .ok wavLayers ∧
      wf = (stack3 size.1 size.2 wavLayers, some (stack3 size.1 size.2 f0Layers))) ∨
    (isMerisFamily s.sensor = false ∧
      wf = (stack3 size.1 size.2 (bands.map fun (band : Nat) => const2 size.1 size.2
              (some (band : ℚ))), none)) := by
  unfold Level1_ASCII.smileStep at h
  cases hfam : isMerisFamily s.sensor with
  | true =>
    rw [hfam] at h
    simp only [if_true] at h
    obtain ⟨di, hdi, h⟩ := except_ok_of_bind h
    obtain ⟨f0L, hf0, h⟩ := except_ok_of_bind h
    obtain ⟨wavL, hwav, h⟩ := except_ok_of_bind h
    rw [epure_eq] at h
    cases h
    exact Or.inl ⟨di, f0L, wavL, rfl, hdi, hf0, hwav, rfl⟩
  | false =>
    rw [hfam] at h
    simp only [Bool.false_eq_true, if_false] at h
    rw [epure_eq] at h
    cases h
    exact Or.inr ⟨rfl, rfl⟩

lemma zip2With_window {α β γ : Type} {f : α → β → γ}
    {A : List (List α)} {B : List (List β)} {yoff ys : Nat} :
    window2 (zip2With f A B) yoff ys
      = zip2With f (window2 A yoff ys) (window2 B yoff ys) := by
  unfold window2 zip2With
  rw [List.drop_zipWith, List.take_zipWith]

lemma mapRows_window {α β : Type} {A : List α} {f : α → β} {yoff ys : Nat} :
    window2 (A.map f) yoff ys = (window2 A yoff ys).map f := by
  simp [window2]

lemma sliceBand_window {A : Arr3} {i yoff ys : Nat} :
    sliceBand (window2 A yoff ys) i = window2 (sliceBand A i) yoff ys := by
  unfold sliceBand
  rw [mapRows_window]

lemma const2_window {y x yoff ys : Nat} {v : Val} (hle : yoff + ys ≤ y) :
    window2 (const2 y x v) yoff ys = const2 ys x v := by
  unfold window2 const2
  rw [List.drop_replicate, List.take_replicate]
  congr 1
  omega

lemma window_rows_shape {α : Type} {A : List (List α)} {Hs Ws : Nat}
    (hA : shape2 A Hs Ws) {ytop ys xoff xs : Nat}
    (hy : ytop + ys ≤ Hs) (hx : xoff + xs ≤ Ws) :
    shape2 (((A.drop ytop).take ys).map fun row => (row.drop xoff).take xs) ys xs := by
  obtain ⟨hlen, hrow⟩ := hA
  constructor
  · rw [List.length_map, List.length_take, List.length_drop]
    omega
  · intro row hrowmem
    simp only [List.mem_map] at hrowmem
    obtain ⟨ra, hra, rfl⟩ := hrowmem
    have hmem : ra ∈ A := List.mem_of_mem_drop (List.mem_of_mem_take hra)
    have hralen : ra.length = Ws := hrow ra hmem
    rw [List.length_take, List.length_drop, hralen]
    omega

lemma read_band_shape {s : Level1_MERIS} {name : String} {size offset : Nat × Nat}
    (hwf : s.prod.wf)
    (hy : offset.1 + s.sline + size.1 ≤ s.prod.sceneHeight)
    (hx : offset.2 + size.2 ≤ s.prod.sceneWidth) :
    shape2 (s.read_band name size offset) size.1 size.2 := by
  unfold Level1_MERIS.read_band
  exact window_rows_shape (hwf.1 name) hy hx

lemma read_bitmask_shape {s : Level1_MERIS} {bmexpr : String} {size offset : Nat × Nat}
    (hwf : s.prod.wf)
    (hy : offset.1 + s.sline + size.1 ≤ s.prod.sceneHeight)
    (hx : offset.2 + size.2 ≤ s.prod.sceneWidth) :
    shape2 (s.read_bitmask size offset bmexpr) size.1 size.2 := by
  unfold Level1_MERIS.read_bitmask
  exact window_rows_shape (hwf.2 bmexpr) hy hx

lemma readM_inv {s : Level1_MERIS} {size offset : Nat × Nat} {bands : List Nat}
    {b : BlockM} (h : s.read_block size offset bands = .ok b) :
    ∃ f0L wavL toaL,
      bands.mapM (lookupLayer s.F0 s.F0_band_names (s.detArr size offset)) = .ok f0L ∧
      bands.mapM (lookupLayer s.detector_wavelength s.wav_band_names
        (s.detArr size offset)) = .ok wavL ∧
      bands.mapM (s.toaLayer size offset) = .ok toaL ∧
      b = { offset := offset, size := size, bands := bands,
            latitude := s.read_band "latitude" size offset,
            longitude := s.read_band "longitude" size offset,
            sza := s.read_band "sun_zenith" size offset,
            vza := s.read_band "view_zenith" size offset,
            saa := s.read_band "sun_azimuth" size offset,
            vaa := s.read_band "view_azimuth" size offset,
            F0 := stack3 size.1 size.2 f0L,
            wavelen := stack3 size.1 size.2 wavL,
            Ltoa := stack3 size.1 size.2 toaL,
            wind_speed := zip2With (fun a b => vSqrt (vAdd (vSq a) (vSq b)))
              (s.read_band "zonal_wind" size offset)
              (s.read_band "merid_wind" size offset),
            ozone := s.read_band "ozone" size offset,
            surf_press := s.read_band "atm_press" size offset,
            jday := s.dateYday,
            bitmask := zip2With merisBitmaskCell
              (s.read_bitmask size offset "l1_flags.LAND_OCEAN")
              (s.read_bitmask size offset
                "(l1_flags.INVALID) OR (l1_flags.SUSPECT) OR (l1_flags.COSMETIC)") } := by
  unfold Level1_MERIS.read_block at h
  obtain ⟨f0L, hf0, h⟩ := except_ok_of_bind h
  obtain ⟨wavL, hwav, h⟩ := except_ok_of_bind h
  obtain ⟨toaL, htoa, h⟩ := except_ok_of_bind h
  cases h
  exact ⟨f0L, wavL, toaL, hf0, hwav, htoa, rfl⟩

lemma lookupLayer_inv {tbl : List (String × List Val)} {names : List (Nat × String)}
    {di : List (List Int)} {band : Nat} {L : Arr2}
    (h : lookupLayer tbl names di band = .ok L) :
    ∃ name col, pyGet names band = .ok name ∧ pyGet tbl name = .ok col ∧
      L = di.map fun row => row.map fun d => npIndex col d := by
  unfold lookupLayer at h
  obtain ⟨name, hname, h⟩ := except_ok_of_bind h
  obtain ⟨col, hcol, h⟩ := except_ok_of_bind h
  cases h
  exact ⟨name, col, hname, hcol, rfl⟩

lemma lookupLayer_shape {tbl : List (String × List Val)} {names : List (Nat × String)}
    {di : List (List Int)} {band : Nat} {L : Arr2} {y x : Nat}
    (h : lookupLayer tbl names di band = .ok L) (hdi : shape2 di y x) :
    shape2 L y x := by
  obtain ⟨name, col, hname, hcol, rfl⟩ := lookupLayer_inv h
  exact map_shape2 hdi

lemma const2_shape (y x : Nat) (v : Val) : shape2 (const2 y x v) y x := by
  constructor
  · simp [const2]
  · intro row hrow
    rw [const2, List.mem_replicate] at hrow
    rw [hrow.2]
    simp

lemma toaLayerM_inv {s : Level1_MERIS} {size offset : Nat × Nat} {band : Nat}
    {L : Arr2} (h : s.toaLayer size offset band = .ok L) :
    ∃ name, pyGet s.band_names band = .ok name ∧ L = s.read_band name size offset := by
  unfold Level1_MERIS.toaLayer at h
  obtain ⟨name, hname, h⟩ := except_ok_of_bind h
  rw [epure_eq] at h
  cases h
  exact ⟨name, hname, rfl⟩

lemma raaView_ok_shape {az : Option Arr2 × Option Arr2 × Option Arr2} {raaA : Arr2}
    {s : Level1_ASCII} {sl size : Nat × Nat}
    (haz : s.azStep sl size = .ok az)
    (hraa : raaView az.1 az.2.1 az.2.2 = .ok raaA) :
    shape2 raaA size.1 size.2 := by
  rcases azStep_inv haz with ⟨r, _, hr, rfl⟩ | ⟨sa, va, _, hsa, hva, rfl⟩
  · unfold raaView at hraa
    cases hraa
    exact get_field_ok_shape hr
  · unfold raaView at hraa
    cases hraa
    exact zip2With_shape (get_field_ok_shape hsa) (get_field_ok_shape hva)

lemma asciiShapes {s : Level1_ASCII} {size offset : Nat × Nat} {bands : List Nat}
    {b : BlockA} (h : s.read_block size offset bands = .ok b) :
    shape2 b.latitude size.1 size.2 ∧ shape2 b.longitude size.1 size.2 ∧
    shape2 b.sza size.1 size.2 ∧ shape2 b.vza size.1 size.2 ∧
    (∀ A, b.raaStored = some A → shape2 A size.1 size.2) ∧
    (∀ A, b.saa = some A → shape2 A size.1 size.2) ∧
    (∀ A, b.vaa = some A → shape2 A size.1 size.2) ∧
    shape2 b.jday size.1 size.2 ∧ shape2 b.month size.1 size.2 ∧
    shape2 b.bitmask size.1 size.2 ∧ shape2 b.ozone size.1 size.2 ∧
    shape2 b.wind_speed size.1 size.2 ∧ shape2 b.surf_press size.1 size.2 ∧
    shape3 b.wavelen size.1 size.2 bands.length ∧
    (∀ A, b.F0 = some A → shape3 A size.1 size.2 bands.length) ∧
    (∀ A, b.Rtoa = some A → shape3 A size.1 size.2 bands.length) ∧
    (∀ A, b.Ltoa = some A → shape3 A size.1 size.2 bands.length) := by
  obtain ⟨la, lo, sz, vz, az, tls, rl, wf, jd, mo, raaA, oz, ws, sp,
    hla, hlo, hsz, hvz, haz, htls, hrl, hwf, hjd, hmo, hraa, hoz, hws, hsp, hb⟩ :=
    readA_inv h
  subst hb
  have htlen : tls.length = bands.length := mapM_ok_length htls
  refine ⟨get_field_ok_shape hla, get_field_ok_shape hlo, get_field_ok_shape hsz,
    get_field_ok_shape hvz, ?_, ?_, ?_, reshape2_ok_shape hjd, reshape2_ok_shape hmo,
    ?_, get_field_ok_shape hoz, ?_, get_field_ok_shape hsp, ?_, ?_, ?_, ?_⟩
  · intro A hA
    rcases azStep_inv haz with ⟨r, _, hr, heq⟩ | ⟨sa, va, _, hsa, hva, heq⟩ <;>
      rw [heq] at hA
    · simp only [Option.some.injEq] at hA
      subst hA
      exact get_field_ok_shape hr
    · simp at hA
  · intro A hA
    rcases azStep_inv haz with ⟨r, _, hr, heq⟩ | ⟨sa, va, _, hsa, hva, heq⟩ <;>
      rw [heq] at hA
    · simp at hA
    · simp only [Option.some.injEq] at hA
      subst hA
      exact get_field_ok_shape hsa
  · intro A hA
    rcases azStep_inv haz with ⟨r, _, hr, heq⟩ | ⟨sa, va, _, hsa, hva, heq⟩ <;>
      rw [heq] at hA
    · simp at hA
    · simp only [Option.some.injEq] at hA
      subst hA
      exact get_field_ok_shape hva
  · exact map_shape2 (zip2With_shape (raaView_ok_shape haz hraa)
      (stack3_sliceBand_shape size.1 size.2 0 tls))
  · rcases windStep_inv hws with ⟨_, hw⟩ | ⟨zw, mw, _, hzw, hmw, heq⟩
    · exact get_field_ok_shape hw
    · rw [heq] at hws ⊢
      exact zip2With_shape (get_field_ok_shape hzw) (get_field_ok_shape hmw)
  · rcases smileStep_inv hwf with ⟨di, f0L, wavL, _, hdi, hf0, hwavL, heq⟩ | ⟨_, heq⟩
    · rw [heq]
      have := stack3_shape size.1 size.2 wavL
      rwa [mapM_ok_length hwavL] at this
    · rw [heq]
      have := stack3_shape size.1 size.2 (bands.map fun (band : Nat) =>
        const2 size.1 size.2 (some (band : ℚ)))
      rwa [List.length_map] at this
  · intro A hA
    rcases smileStep_inv hwf with ⟨di, f0L, wavL, _, hdi, hf0, hwavL, heq⟩ | ⟨_, heq⟩ <;>
      rw [heq] at hA
    · simp only [Option.some.injEq] at hA
      subst hA
      have := stack3_shape size.1 size.2 f0L
      rwa [mapM_ok_length hf0] at this
    · simp at hA
  · intro A hA
    rcases toarStep_inv hrl with ⟨_, heq⟩ | ⟨_, heq⟩ <;> rw [heq] at hA
    · simp only [Option.some.injEq] at hA
      subst hA
      have := stack3_shape size.1 size.2 tls
      rwa [htlen] at this
    · simp at hA
  · intro A hA
    rcases toarStep_inv hrl with ⟨_, heq⟩ | ⟨_, heq⟩ <;> rw [heq] at hA
    · simp at hA
    · simp only [Option.some.injEq] at hA
      subst hA
      have := stack3_shape size.1 size.2 tls
      rwa [htlen] at this

lemma detStep_ok_shape {s : Level1_ASCII} {sl size : Nat × Nat} {di : List (List Int)}
    (h : s.detStep sl size = .ok di) : shape2 di size.1 size.2 := by
  obtain ⟨dname, dcol, di2, _, _, hdi2, rfl⟩ := detStep_inv h
  exact map_shape2 (reshape2_ok_shape hdi2)

lemma asciiBandOrder {s : Level1_ASCII} {size offset : Nat × Nat} {bands : List Nat}
    {b : BlockA} (h : s.read_block size offset bands = .ok b) :
    ∀ i, i < bands.length → ∃ band L, bands[i]? = some band ∧
      s.toaLayer (slOf offset size) size band = .ok L ∧
      sliceBand (BlockA.toa b) i = L := by
  obtain ⟨la, lo, sz, vz, az, tls, rl, wf, jd, mo, raaA, oz, ws, sp,
    hla, hlo, hsz, hvz, haz, htls, hrl, hwf, hjd, hmo, hraa, hoz, hws, hsp, hb⟩ :=
    readA_inv h
  subst hb
  intro i hi
  obtain ⟨band, L, hband, hL, hfband⟩ := mapM_ok_getElem htls i hi
  refine ⟨band, L, hband, hfband, ?_⟩
  have htoa : BlockA.toa
      { offset := offset, size := size, bands := bands,
        wavelen := wf.1, latitude := la, longitude := lo, sza := sz, vza := vz,
        raaStored := az.1, saa := az.2.1, vaa := az.2.2,
        Rtoa := rl.1, Ltoa := rl.2, F0 := wf.2, jday := jd, month := mo,
        bitmask := (zip2With invalidCell raaA
          (sliceBand (stack3 size.1 size.2 tls) 0)).map
          (fun row => row.map asciiBitmaskCell),
        ozone := oz, wind_speed := ws, surf_press := sp }
      = stack3 size.1 size.2 tls := by
    rcases toarStep_inv hrl with ⟨_, heq⟩ | ⟨_, heq⟩ <;> rw [heq] <;> rfl
  rw [htoa]
  exact sliceBand_stack3 hL (toaLayer_ok_shape hfband)

lemma asciiSmileOrder {s : Level1_ASCII} {size offset : Nat × Nat} {bands : List Nat}
    {b : BlockA} (h : s.read_block size offset bands = .ok b) :
    (isMerisFamily s.sensor = true →
      ∃ di, s.detStep (slOf offset size) size = .ok di ∧
        (∀ i, i < bands.length → ∃ band L, bands[i]? = some band ∧
          lookupLayer s.detector_wavelength s.wav_band_names di band = .ok L ∧
          sliceBand b.wavelen i = L) ∧
        (∃ F0a, b.F0 = some F0a ∧ ∀ i, i < bands.length →
          ∃ band L, bands[i]? = some band ∧
            lookupLayer s.F0 s.F0_band_names di band = .ok L ∧
            sliceBand F0a i = L)) ∧
    (isMerisFamily s.sensor = false →
      b.F0 = none ∧
      ∀ i, i < bands.length → ∃ band, bands[i]? = some band ∧
        sliceBand b.wavelen i = const2 size.1 size.2 (some (band : ℚ))) := by
  obtain ⟨la, lo, sz, vz, az, tls, rl, wf, jd, mo, raaA, oz, ws, sp,
    hla, hlo, hsz, hvz, haz, htls, hrl, hwf, hjd, hmo, hraa, hoz, hws, hsp, hb⟩ :=
    readA_inv h
  subst hb
  rcases smileStep_inv hwf with ⟨di, f0L, wavL, hfam, hdi, hf0, hwavL, heq⟩ | ⟨hfam, heq⟩
  · subst heq
    constructor
    · intro _
      refine ⟨di, hdi, ?_, ?_⟩
      · intro i hi
        obtain ⟨band, L, hband, hL, hfband⟩ := mapM_ok_getElem hwavL i hi
        refine ⟨band, L, hband, hfband, ?_⟩
        exact sliceBand_stack3 hL
          (lookupLayer_shape hfband (detStep_ok_shape hdi))
      · refine ⟨stack3 size.1 size.2 f0L, rfl, ?_⟩
        intro i hi
        obtain ⟨band, L, hband, hL, hfband⟩ := mapM_ok_getElem hf0 i hi
        refine ⟨band, L, hband, hfband, ?_⟩
        exact sliceBand_stack3 hL
          (lookupLayer_shape hfband (detStep_ok_shape hdi))
    · intro hcon
      simp [hcon] at hfam
  · subst heq
    constructor
    · intro hcon
      simp [hcon] at hfam
    · intro _
      refine ⟨rfl, ?_⟩
      intro i hi
      rcases hband : bands[i]? with _ | band
      · rw [List.getElem?_eq_none_iff] at hband
        omega
      · refine ⟨band, rfl, ?_⟩
        have hlay : (bands.map fun (bd : Nat) =>
            const2 size.1 size.2 (some (bd : ℚ)))[i]?
            = some (const2 size.1 size.2 (some (band : ℚ))) := by
          rw [List.getElem?_map, hband]
          rfl
        exact sliceBand_stack3 hlay (const2_shape size.1 size.2 _)

lemma detArr_shape {s : Level1_MERIS} {size offset : Nat × Nat}
    (hwf : s.prod.wf)
    (hy : offset.1 + s.sline + size.1 ≤ s.prod.sceneHeight)
    (hx : offset.2 + size.2 ≤ s.prod.sceneWidth) :
    shape2 (s.detArr size offset) size.1 size.2 := by
  unfold Level1_MERIS.detArr
  exact map_shape2 (read_band_shape hwf hy hx)

lemma merisShapes {s : Level1_MERIS} {size offset : Nat × Nat} {bands : List Nat}
    {b : BlockM} (hwf : s.prod.wf)
    (hy : offset.1 + s.sline + size.1 ≤ s.prod.sceneHeight)
    (hx : offset.2 + size.2 ≤ s.prod.sceneWidth)
    (h : s.read_block size offset bands = .ok b) :
    shape2 b.latitude size.1 size.2 ∧ shape2 b.longitude size.1 size.2 ∧
    shape2 b.sza size.1 size.2 ∧ shape2 b.vza size.1 size.2 ∧
    shape2 b.saa size.1 size.2 ∧ shape2 b.vaa size.1 size.2 ∧
    shape2 b.wind_speed size.1 size.2 ∧ shape2 b.ozone size.1 size.2 ∧
    shape2 b.surf_press size.1 size.2 ∧ shape2 b.bitmask size.1 size.2 ∧
    shape3 b.F0 size.1 size.2 bands.length ∧
    shape3 b.wavelen size.1 size.2 bands.length ∧
    shape3 b.Ltoa size.1 size.2 bands.length ∧
    (∀ i, i < bands.length → ∃ band L, bands[i]? = some band ∧
      s.toaLayer size offset band = .ok L ∧ sliceBand b.Ltoa i = L) ∧
    (∀ i, i < bands.length → ∃ band L, bands[i]? = some band ∧
      lookupLayer s.detector_wavelength s.wav_band_names (s.detArr size offset) band
        = .ok L ∧ sliceBand b.wavelen i = L) ∧
    (∀ i, i < bands.length → ∃ band L, bands[i]? = some band ∧
      lookupLayer s.F0 s.F0_band_names (s.detArr size offset) band = .ok L ∧
      sliceBand b.F0 i = L) := by
  obtain ⟨f0L, wavL, toaL, hf0, hwav, htoa, hb⟩ := readM_inv h
  subst hb
  refine ⟨read_band_shape hwf hy hx, read_band_shape hwf hy hx,
    read_band_shape hwf hy hx, read_band_shape hwf hy hx,
    read_band_shape hwf hy hx, read_band_shape hwf hy hx,
    zip2With_shape (read_band_shape hwf hy hx) (read_band_shape hwf hy hx),
    read_band_shape hwf hy hx, read_band_shape hwf hy hx,
    zip2With_shape (read_bitmask_shape hwf hy hx) (read_bitmask_shape hwf hy hx),
    ?_, ?_, ?_, ?_, ?_, ?_⟩
  · have := stack3_shape size.1 size.2 f0L
    rwa [mapM_ok_length hf0] at this
  · have := stack3_shape size.1 size.2 wavL
    rwa [mapM_ok_length hwav] at this
  · have := stack3_shape size.1 size.2 toaL
    rwa [mapM_ok_length htoa] at this
  · intro i hi
    obtain ⟨band, L, hband, hL, hfband⟩ := mapM_ok_getElem htoa i hi
    refine ⟨band, L, hband, hfband, ?_⟩
    obtain ⟨name, hname, rfl⟩ := toaLayerM_inv hfband
    exact sliceBand_stack3 hL (read_band_shape hwf hy hx)
  · intro i hi
    obtain ⟨band, L, hband, hL, hfband⟩ := mapM_ok_getElem hwav i hi
    refine ⟨band, L, hband, hfband, ?_⟩
    exact sliceBand_stack3 hL (lookupLayer_shape hfband (detArr_shape hwf hy hx))
  · intro i hi
    obtain ⟨band, L, hband, hL, hfband⟩ := mapM_ok_getElem hf0 i hi
    refine ⟨band, L, hband, hfband, ?_⟩
    exact sliceBand_stack3 hL (lookupLayer_shape hfband (detArr_shape hwf hy hx))

/-- C2: every Block returned by `read_block` with size `(ysize, xsize)`
and requested band list `bands` has per-pixel arrays whose leading two
dimensions are `(ysize, xsize)`, and band-indexed arrays (TOA, true
wavelength, solar flux) with a trailing axis of length `bands.length`
whose slice `iband` holds exactly the data read for `bands[iband]` — for
the tabular source unconditionally, and for the binary-format source
under a well-formed product and an in-bounds window. -/
theorem C2_block_shapes :
    (∀ (s : Level1_ASCII) (size offset : Nat × Nat) (bands : List Nat) (b : BlockA),
      s.read_block size offset bands = .ok b →
      (shape2 b.latitude size.1 size.2 ∧ shape2 b.longitude size.1 size.2 ∧
       shape2 b.sza size.1 size.2 ∧ shape2 b.vza size.1 size.2 ∧
       (∀ A, b.raaStored = some A → shape2 A size.1 size.2) ∧
       (∀ A, b.saa = some A → shape2 A size.1 size.2) ∧
       (∀ A, b.vaa = some A → shape2 A size.1 size.2) ∧
       shape2 b.jday size.1 size.2 ∧ shape2 b.month size.1 size.2 ∧
       shape2 b.bitmask size.1 size.2 ∧ shape2 b.ozone size.1 size.2 ∧
       shape2 b.wind_speed size.1 size.2 ∧ shape2 b.surf_press size.1 size.2 ∧
       shape3 b.wavelen size.1 size.2 bands.length ∧
       (∀ A, b.F0 = some A → shape3 A size.1 size.2 bands.length) ∧
       (∀ A, b.Rtoa = some A → shape3 A size.1 size.2 bands.length) ∧
       (∀ A, b.Ltoa = some A → shape3 A size.1 size.2 bands.length)) ∧
      (∀ i, i < bands.length → ∃ band L, bands[i]? = some band ∧
        s.toaLayer (slOf offset size) size band = .ok L ∧
        sliceBand (BlockA.toa b) i = L) ∧
      ((isMerisFamily s.sensor = true →
        ∃ di, s.detStep (slOf offset size) size = .ok di ∧
          (∀ i, i < bands.length → ∃ band L, bands[i]? = some band ∧
            lookupLayer s.detector_wavelength s.wav_band_names di band = .ok L ∧
            sliceBand b.wavelen i = L) ∧
          (∃ F0a, b.F0 = some F0a ∧ ∀ i, i < bands.length →
            ∃ band L, bands[i]? = some band ∧
              lookupLayer s.F0 s.F0_band_names di band = .ok L ∧
              sliceBand F0a i = L)) ∧
       (isMerisFamily s.sensor = false →
        b.F0 = none ∧
        ∀ i, i < bands.length → ∃ band, bands[i]? = some band ∧
          sliceBand b.wavelen i = const2 size.1 size.2 (some (band : ℚ))))) ∧
    (∀ (s : Level1_MERIS) (size offset : Nat × Nat) (bands : List Nat) (b : BlockM),
      s.prod.wf →
      offset.1 + s.sline + size.1 ≤ s.prod.sceneHeight →
      offset.2 + size.2 ≤ s.prod.sceneWidth →
      s.read_block size offset bands = .ok b →
      shape2 b.latitude size.1 size.2 ∧ shape2 b.longitude size.1 size.2 ∧
      shape2 b.sza size.1 size.2 ∧ shape2 b.vza size.1 size.2 ∧
      shape2 b.saa size.1 size.2 ∧ shape2 b.vaa size.1 size.2 ∧
      shape2 b.wind_speed size.1 size.2 ∧ shape2 b.ozone size.1 size.2 ∧
      shape2 b.surf_press size.1 size.2 ∧ shape2 b.bitmask size.1 size.2 ∧
      shape3 b.F0 size.1 size.2 bands.length ∧
      shape3 b.wavelen size.1 size.2 bands.length ∧
      shape3 b.Ltoa size.1 size.2 bands.length ∧
      (∀ i, i < bands.length → ∃ band L, bands[i]? = some band ∧
        s.toaLayer size offset band = .ok L ∧ sliceBand b.Ltoa i = L) ∧
      (∀ i, i < bands.length → ∃ band L, bands[i]? = some band ∧
        lookupLayer s.detector_wavelength s.wav_band_names (s.detArr size offset) band
          = .ok L ∧ sliceBand b.wavelen i = L) ∧
      (∀ i, i < bands.length → ∃ band L, bands[i]? = some band ∧
        lookupLayer s.F0 s.F0_band_names (s.detArr size offset) band = .ok L ∧
        sliceBand b.F0 i = L)) :=
  ⟨fun _ _ _ _ _ h => ⟨asciiShapes h, asciiBandOrder h, asciiSmileOrder h⟩,
   fun _ _ _ _ _ hwf hy hx h => merisShapes hwf hy hx h⟩

/-- Witness for C2 at the concrete tabular fixture `srcA` (shape `(3,1)`,
one band) and binary fixture `srcM` (shape `(2,2)`, one band). -/
theorem C2_block_shapes_witness :
    (∃ b, srcA.read_block (3, 1) (0, 0) [412] = .ok b ∧ shape2 b.latitude 3 1 ∧
      shape3 b.wavelen 3 1 1) ∧
    (∃ b, srcM.read_block (2, 2) (0, 0) [412] = .ok b ∧ shape2 b.latitude 2 2 ∧
      shape3 b.Ltoa 2 2 1) := by
  constructor
  · cases hA : srcA.read_block (3, 1) (0, 0) [412] with
    | error e =>
      have hok : (srcA.read_block (3, 1) (0, 0) [412]).isOk = true := by decide
      rw [hA] at hok
      simp [Except.toBool] at hok
    | ok b =>
      have hs := C2_block_shapes.1 srcA (3, 1) (0, 0) [412] b hA
      exact ⟨b, rfl, hs.1.1, hs.1.2.2.2.2.2.2.2.2.2.2.2.2.2.1⟩
  · cases hM : srcM.read_block (2, 2) (0, 0) [412] with
    | error e =>
      have hok : (srcM.read_block (2, 2) (0, 0) [412]).isOk = true := by decide
      rw [hM] at hok
      simp [Except.toBool] at hok
    | ok b =>
      have hwf : srcM.prod.wf := by
        constructor
        · intro name
          show shape2 (prodM.bandData name) 2 2
          unfold prodM
          dsimp only
          split_ifs <;> exact ⟨rfl, by decide⟩
        · intro bmexpr
          show shape2 (prodM.flagData bmexpr) 2 2
          unfold prodM
          dsimp only
          split_ifs <;> exact ⟨rfl, by decide⟩
      have hs := C2_block_shapes.2 srcM (2, 2) (0, 0) [412] b hwf (by decide)
        (by decide) hM
      exact ⟨b, rfl, hs.1, hs.2.2.2.2.2.2.2.2.2.2.2.2.1⟩

lemma cellN_map2 {α : Type} {f : α → Nat} {A : List (List α)} (r c : Nat) :
    cellN (A.map fun row => row.map f) r c = 0 ∨
      ∃ a, cellN (A.map fun row => row.map f) r c = f a := by
  unfold cellN
  rw [List.getElem?_map]
  cases hA : A[r]? with
  | none => simp
  | some row =>
    simp only [Option.map_some', Option.bind_eq_bind, Option.some_bind,
      List.getElem?_map]
    cases hc : row[c]? with
    | none => simp
    | some a =>
      right
      exact ⟨a, by simp⟩

lemma cellN_zip2 {α β : Type} {f : α → β → Nat} {A : List (List α)}
    {B : List (List β)} (r c : Nat) :
    cellN (zip2With f A B) r c = 0 ∨
      ∃ a b, cellN (zip2With f A B) r c = f a b := by
  unfold cellN zip2With
  rw [List.getElem?_zipWith]
  cases hA : A[r]? with
  | none => simp
  | some ra =>
    cases hB : B[r]? with
    | none => simp
    | some rb =>
      simp only [Option.map_some', Option.bind_eq_bind, Option.some_bind,
        List.getElem?_zipWith]
      cases hca : ra[c]? with
      | none => simp
      | some a =>
        cases hcb : rb[c]? with
        | none => simp
        | some b =>
          right
          exact ⟨a, b, by simp⟩

lemma merisBitmaskCell_eq_lor (land inv : Bool) :
    merisBitmaskCell land inv
      = Nat.lor (L2FLAGS_LAND * (if land then 1 else 0))
                (L2FLAGS_L1_INVALID * (if inv then 1 else 0)) := by
  cases land <;> cases inv <;> decide

lemma asciiBitmaskCell_eq_lor (inv : Bool) :
    asciiBitmaskCell inv
      = Nat.lor 0 (L2FLAGS_L1_INVALID * (if inv then 1 else 0)) := by
  cases inv <;> decide

lemma merisBitmaskCell_flags (land inv : Bool) :
    hasFlag (merisBitmaskCell land inv) L2FLAGS_LAND = land ∧
    hasFlag (merisBitmaskCell land inv) L2FLAGS_L1_INVALID = inv := by
  cases land <;> cases inv <;> exact ⟨by decide, by decide⟩

lemma asciiBitmaskCell_flags (inv : Bool) :
    hasFlag (asciiBitmaskCell inv) L2FLAGS_L1_INVALID = inv ∧
    hasFlag (asciiBitmaskCell inv) L2FLAGS_LAND = false := by
  cases inv <;> exact ⟨by decide, by decide⟩

/-- C6: for both sources, the quality bitmask of each pixel equals the
bitwise OR of the applicable named flags, with each flag contributing only
its own bit (the uint16 sums `L2FLAGS['LAND']*land + L2FLAGS['L1_INVALID']*inv`
and `L2FLAGS['L1_INVALID']*inv` carry nothing across bits), and assembly is
monotone: any bit set at an earlier accumulation stage is still set after
the next flag combination is added. -/
theorem C6_bitmask_or_monotone :
    (∀ (s : Level1_ASCII) (size offset : Nat × Nat) (bands : List Nat) (b : BlockA),
      s.read_block size offset bands = .ok b → ∀ r c, ∃ inv : Bool,
        cellN b.bitmask r c
          = Nat.lor 0 (L2FLAGS_L1_INVALID * (if inv then 1 else 0)) ∧
        hasFlag (cellN b.bitmask r c) L2FLAGS_L1_INVALID = inv ∧
        hasFlag (cellN b.bitmask r c) L2FLAGS_LAND = false) ∧
    (∀ (s : Level1_MERIS) (size offset : Nat × Nat) (bands : List Nat) (b : BlockM),
      s.read_block size offset bands = .ok b → ∀ r c, ∃ land inv : Bool,
        cellN b.bitmask r c
          = Nat.lor (L2FLAGS_LAND * (if land then 1 else 0))
                    (L2FLAGS_L1_INVALID * (if inv then 1 else 0)) ∧
        hasFlag (cellN b.bitmask r c) L2FLAGS_LAND = land ∧
        hasFlag (cellN b.bitmask r c) L2FLAGS_L1_INVALID = inv) ∧
    (∀ (land inv : Bool) (k : Nat),
      Nat.testBit (L2FLAGS_LAND * (if land then 1 else 0)) k = true →
        Nat.testBit (merisBitmaskCell land inv) k = true) ∧
    (∀ (inv : Bool) (k : Nat), Nat.testBit 0 k = true →
        Nat.testBit (asciiBitmaskCell inv) k = true) := by
  refine ⟨?_, ?_, ?_, ?_⟩
  · intro s size offset bands b h r c
    obtain ⟨la, lo, sz, vz, az, tls, rl, wf, jd, mo, raaA, oz, ws, sp,
      hla, hlo, hsz, hvz, haz, htls, hrl, hwf, hjd, hmo, hraa, hoz, hws, hsp, hb⟩ :=
      readA_inv h
    subst hb
    rcases cellN_map2 (f := asciiBitmaskCell)
        (A := zip2With invalidCell raaA (sliceBand (stack3 size.1 size.2 tls) 0)) r c
      with hz | ⟨a, ha⟩
    · refine ⟨false, ?_, ?_, ?_⟩ <;> rw [hz] <;> decide
    · refine ⟨a, ?_, ?_, ?_⟩ <;> rw [ha]
      · exact asciiBitmaskCell_eq_lor a
      · exact (asciiBitmaskCell_flags a).1
      · exact (asciiBitmaskCell_flags a).2
  · intro s size offset bands b h r c
    obtain ⟨f0L, wavL, toaL, hf0, hwav, htoa, hb⟩ := readM_inv h
    subst hb
    rcases cellN_zip2 (f := merisBitmaskCell)
        (A := s.read_bitmask size offset "l1_flags.LAND_OCEAN")
        (B := s.read_bitmask size offset
          "(l1_flags.INVALID) OR (l1_flags.SUSPECT) OR (l1_flags.COSMETIC)") r c
      with hz | ⟨a, bb, ha⟩
    · refine ⟨false, false, ?_, ?_, ?_⟩ <;> rw [hz] <;> decide
    · refine ⟨a, bb, ?_, ?_, ?_⟩ <;> rw [ha]
      · exact merisBitmaskCell_eq_lor a bb
      · exact (merisBitmaskCell_flags a bb).1
      · exact (merisBitmaskCell_flags a bb).2
  · intro land inv k hk
    rw [merisBitmaskCell_eq_lor]
    show ((L2FLAGS_LAND * if land then 1 else 0)
      ||| (L2FLAGS_L1_INVALID * if inv then 1 else 0)).testBit k = true
    rw [Nat.testBit_or, hk, Bool.true_or]
  · intro inv k hk
    simp at hk

/-- Witness for C6 at the concrete fixtures. -/
theorem C6_bitmask_or_monotone_witness :
    (∃ b, srcA.read_block (3, 1) (0, 0) [412] = .ok b ∧ ∃ inv : Bool,
      cellN b.bitmask 0 0
        = Nat.lor 0 (L2FLAGS_L1_INVALID * (if inv then 1 else 0))) ∧
    (∃ b, srcM.read_block (2, 2) (0, 0) [412] = .ok b ∧ ∃ land inv : Bool,
      cellN b.bitmask 0 0
        = Nat.lor (L2FLAGS_LAND * (if land then 1 else 0))
                  (L2FLAGS_L1_INVALID * (if inv then 1 else 0))) := by
  constructor
  · cases hA : srcA.read_block (3, 1) (0, 0) [412] with
    | error e =>
      have hok : (srcA.read_block (3, 1) (0, 0) [412]).isOk = true := by decide
      rw [hA] at hok
      simp [Except.toBool] at hok
    | ok b =>
      obtain ⟨inv, h1, _, _⟩ :=
        C6_bitmask_or_monotone.1 srcA (3, 1) (0, 0) [412] b hA 0 0
      exact ⟨b, rfl, inv, h1⟩
  · cases hM : srcM.read_block (2, 2) (0, 0) [412] with
    | error e =>
      have hok : (srcM.read_block (2, 2) (0, 0) [412]).isOk = true := by decide
      rw [hM] at hok
      simp [Except.toBool] at hok
    | ok b =>
      obtain ⟨land, inv, h1, _, _⟩ :=
        C6_bitmask_or_monotone.2.1 srcM (2, 2) (0, 0) [412] b hM 0 0
      exact ⟨b, rfl, land, inv, h1⟩

lemma cell2_in_range {A : Arr2} {y x r c : Nat} (hA : shape2 A y x)
    (hr : r < y) (hc : c < x) :
    ∃ ra, A[r]? = some ra ∧ ra.length = x ∧ cell2 A r c = ra[c]?.getD none := by
  obtain ⟨hlen, hrow⟩ := hA
  have hrA : r < A.length := by omega
  refine ⟨A[r], List.getElem?_eq_getElem hrA, hrow _ (List.getElem_mem hrA), ?_⟩
  unfold cell2
  rw [List.getElem?_eq_getElem hrA]
  rfl

lemma cellN_zip_map_cell {f : Val → Val → Bool} {g : Bool → Nat}
    {A B : Arr2} {y x r c : Nat} (hA : shape2 A y x) (hB : shape2 B y x)
    (hr : r < y) (hc : c < x) :
    cellN ((zip2With f A B).map fun row => row.map g) r c
      = g (f (cell2 A r c) (cell2 B r c)) := by
  obtain ⟨ra, hra, hral, hcA⟩ := cell2_in_range hA hr hc
  obtain ⟨rb, hrb, hrbl, hcB⟩ := cell2_in_range hB hr hc
  unfold cellN zip2With
  rw [List.getElem?_map, List.getElem?_zipWith, hra, hrb]
  simp only [Option.map_some', Option.bind_eq_bind, Option.some_bind,
    List.getElem?_map, List.getElem?_zipWith]
  have hca : c < ra.length := by omega
  have hcb : c < rb.length := by omega
  rw [List.getElem?_eq_getElem hca, List.getElem?_eq_getElem hcb] at *
  rw [hcA, hcB]
  simp

/-- Counterexample for C5: a tabular pixel whose solar zenith (a required
geometry value) is NaN but whose relative azimuth and first-band signal
are ordinary is NOT flagged invalid — the code tests only
`np.isnan(block.raa)` and `TOA[:,:,0] < 0`, contradicting the claim that
any NaN geometry/radiometric value sets the invalid bit. -/
theorem C5_counterexample :
    (srcC5.read_block (1, 1) (0, 0) [412]).map
      (fun b => (vIsNaN (cell2 b.sza 0 0),
                 hasFlag (cellN b.bitmask 0 0) L2FLAGS_L1_INVALID))
      = .ok (true, false) := by decide

/-- C5 as amended: for every block produced by the tabular source, the
invalid-pixel bit is set at `(r, c)` if and only if the relative azimuth
is NaN there or the first requested band's signal is negative there —
NaN in other geometry or radiometric fields does not set it. -/
theorem C5_invalid_iff {s : Level1_ASCII} {size offset : Nat × Nat}
    {bands : List Nat} {b : BlockA}
    (h : s.read_block size offset bands = .ok b) (hbands : 0 < bands.length)
    {raa : Arr2} (hraa : raaView b.raaStored b.saa b.vaa = .ok raa)
    {r c : Nat} (hr : r < size.1) (hc : c < size.2) :
    hasFlag (cellN b.bitmask r c) L2FLAGS_L1_INVALID
      = (vIsNaN (cell2 raa r c)
         || vLt0 (cell2 (sliceBand (BlockA.toa b) 0) r c)) := by
  obtain ⟨la, lo, sz, vz, az, tls, rl, wf, jd, mo, raaA, oz, ws, sp,
    hla, hlo, hsz, hvz, haz, htls, hrl, hwf, hjd, hmo, hraa0, hoz, hws, hsp, hb⟩ :=
    readA_inv h
  subst hb
  have hraaA : raa = raaA := by
    rw [hraa0] at hraa
    cases hraa
    rfl
  subst hraaA
  have htoa : BlockA.toa
      { offset := offset, size := size, bands := bands,
        wavelen := wf.1, latitude := la, longitude := lo, sza := sz, vza := vz,
        raaStored := az.1, saa := az.2.1, vaa := az.2.2,
        Rtoa := rl.1, Ltoa := rl.2, F0 := wf.2, jday := jd, month := mo,
        bitmask := (zip2With invalidCell raa
          (sliceBand (stack3 size.1 size.2 tls) 0)).map
          (fun row => row.map asciiBitmaskCell),
        ozone := oz, wind_speed := ws, surf_press := sp }
      = stack3 size.1 size.2 tls := by
    rcases toarStep_inv hrl with ⟨_, heq⟩ | ⟨_, heq⟩ <;> subst heq <;> rfl
  rw [htoa]
  have hcell := cellN_zip_map_cell (f := invalidCell) (g := asciiBitmaskCell)
    (raaView_ok_shape haz hraa0) (stack3_sliceBand_shape size.1 size.2 0 tls) hr hc
  rw [hcell]
  exact (asciiBitmaskCell_flags _).1

/-- Witness for the amended C5 at the fixture `srcC5`. -/
theorem C5_invalid_iff_witness :
    ∃ b raa, srcC5.read_block (1, 1) (0, 0) [412] = .ok b ∧
      raaView b.raaStored b.saa b.vaa = .ok raa ∧
      hasFlag (cellN b.bitmask 0 0) L2FLAGS_L1_INVALID
        = (vIsNaN (cell2 raa 0 0)
           || vLt0 (cell2 (sliceBand (BlockA.toa b) 0) 0 0)) := by
  cases h : srcC5.read_block (1, 1) (0, 0) [412] with
  | error e =>
    have hok : (srcC5.read_block (1, 1) (0, 0) [412]).isOk = true := by decide
    rw [h] at hok
    simp [Except.toBool] at hok
  | ok b =>
    have hcomp : (srcC5.read_block (1, 1) (0, 0) [412]).map
        (fun bb => (raaView bb.raaStored bb.saa bb.vaa).isOk) = .ok true := by decide
    rw [h] at hcomp
    simp only [Except.map] at hcomp
    cases hv : raaView b.raaStored b.saa b.vaa with
    | error e2 =>
      rw [hv] at hcomp
      simp [Except.toBool] at hcomp
    | ok raa =>
      exact ⟨b, raa, rfl, hv,
        C5_invalid_iff h (by decide) hv (by decide) (by decide)⟩

lemma cell3_stack3 {y x r c i : Nat} {layers : List Arr2} {L : Arr2}
    (hr : r < y) (hc : c < x) (hL : layers[i]? = some L) :
    cell3 (stack3 y x layers) r c i = cell2 L r c := by
  unfold cell3 stack3
  rw [List.getElem?_map, List.getElem?_range hr]
  simp only [Option.map_some', Option.bind_eq_bind, Option.some_bind,
    List.getElem?_map, List.getElem?_range hc, List.getElem?_map, hL]
  rfl

lemma cell2_map_map {g : Int → Val} {di : List (List Int)} {y x r c : Nat}
    (hdi : shape2 di y x) (hr : r < y) (hc : c < x) :
    cell2 (di.map fun row => row.map g) r c = g (cellI di r c) := by
  obtain ⟨hlen, hrow⟩ := hdi
  have hrA : r < di.length := by omega
  have hcA : c < di[r].length := by
    rw [hrow _ (List.getElem_mem hrA)]
    omega
  unfold cell2 cellI
  rw [List.getElem?_map, List.getElem?_eq_getElem hrA]
  simp only [Option.map_some', Option.bind_eq_bind, Option.some_bind,
    List.getElem?_map]
  rw [List.getElem?_eq_getElem hcA]
  rfl

lemma cell2_const2 {y x r c : Nat} {v : Val} (hr : r < y) (hc : c < x) :
    cell2 (const2 y x v) r c = v := by
  unfold cell2 const2
  rw [List.getElem?_eq_getElem (by simp; omega)]
  simp [List.getElem_replicate]
  rw [List.getElem?_eq_getElem (by simp; omega)]
  simp [List.getElem_replicate]

/-- Counterexample for C4: a block produced by a tabular source whose
sensor has no detector-index effect (SeaWiFS) carries NO solar-flux
array at all — `read_block` never assigns `block.F0` outside the MERIS
branch — so the claim that for such sensors "the solar flux is a
constant per band" fails: there is no flux data on the block. -/
theorem C4_counterexample :
    (srcA.read_block (3, 1) (0, 0) [412]).map (fun b => b.F0) = .ok none := by
  decide

/-- C4 as amended: for blocks of a MERIS-family (detector-index) source —
tabular or binary — true wavelength and solar flux at `(r, c, i)` are the
calibration-table columns of band `bands[i]` indexed by the per-pixel
detector index; for a tabular sensor without the effect, the wavelength
equals the band's nominal value at every pixel and no solar-flux array is
produced (`F0 = none`), rather than a per-band constant. -/
theorem C4_smile_lookup :
    (∀ (s : Level1_ASCII) (size offset : Nat × Nat) (bands : List Nat) (b : BlockA),
      s.read_block size offset bands = .ok b →
      (isMerisFamily s.sensor = true →
        ∃ di, s.detStep (slOf offset size) size = .ok di ∧
        ∃ F0a, b.F0 = some F0a ∧
        ∀ r c i, r < size.1 → c < size.2 → i < bands.length →
          ∃ band wname wcol fname fcol, bands[i]? = some band ∧
            pyGet s.wav_band_names band = .ok wname ∧
            pyGet s.detector_wavelength wname = .ok wcol ∧
            cell3 b.wavelen r c i = npIndex wcol (cellI di r c) ∧
            pyGet s.F0_band_names band = .ok fname ∧
            pyGet s.F0 fname = .ok fcol ∧
            cell3 F0a r c i = npIndex fcol (cellI di r c)) ∧
      (isMerisFamily s.sensor = false →
        b.F0 = none ∧
        ∀ r c i, r < size.1 → c < size.2 → i < bands.length →
          ∃ band, bands[i]? = some band ∧
            cell3 b.wavelen r c i = some (band : ℚ))) ∧
    (∀ (s : Level1_MERIS) (size offset : Nat × Nat) (bands : List Nat) (b : BlockM),
      s.prod.wf →
      offset.1 + s.sline + size.1 ≤ s.prod.sceneHeight →
      offset.2 + size.2 ≤ s.prod.sceneWidth →
      s.read_block size offset bands = .ok b →
      ∀ r c i, r < size.1 → c < size.2 → i < bands.length →
        ∃ band wname wcol fname fcol, bands[i]? = some band ∧
          pyGet s.wav_band_names band = .ok wname ∧
          pyGet s.detector_wavelength wname = .ok wcol ∧
          cell3 b.wavelen r c i = npIndex wcol (cellI (s.detArr size offset) r c) ∧
          pyGet s.F0_band_names band = .ok fname ∧
          pyGet s.F0 fname = .ok fcol ∧
          cell3 b.F0 r c i = npIndex fcol (cellI (s.detArr size offset) r c)) := by
  constructor
  · intro s size offset bands b h
    obtain ⟨la, lo, sz, vz, az, tls, rl, wf, jd, mo, raaA, oz, ws, sp,
      hla, hlo, hsz, hvz, haz, htls, hrl, hwf, hjd, hmo, hraa, hoz, hws, hsp, hb⟩ :=
      readA_inv h
    subst hb
    rcases smileStep_inv hwf with ⟨di, f0L, wavL, hfam, hdi, hf0, hwavL, heq⟩ |
      ⟨hfam, heq⟩
    · subst heq
      constructor
      · intro _
        refine ⟨di, hdi, stack3 size.1 size.2 f0L, rfl, ?_⟩
        intro r c i hr hc hi
        obtain ⟨band, Lw, hband, hLw, hfw⟩ := mapM_ok_getElem hwavL i hi
        obtain ⟨band2, Lf, hband2, hLf, hff⟩ := mapM_ok_getElem hf0 i hi
        rw [hband] at hband2
        cases hband2
        obtain ⟨wname, wcol, hwname, hwcol, hLweq⟩ := lookupLayer_inv hfw
        obtain ⟨fname, fcol, hfname, hfcol, hLfeq⟩ := lookupLayer_inv hff
        refine ⟨band, wname, wcol, fname, fcol, hband, hwname, hwcol, ?_,
          hfname, hfcol, ?_⟩
        · rw [cell3_stack3 hr hc hLw, hLweq,
            cell2_map_map (detStep_ok_shape hdi) hr hc]
        · rw [cell3_stack3 hr hc hLf, hLfeq,
            cell2_map_map (detStep_ok_shape hdi) hr hc]
      · intro hcon
        simp [hcon] at hfam
    · subst heq
      constructor
      · intro hcon
        simp [hcon] at hfam
      · intro _
        refine ⟨rfl, ?_⟩
        intro r c i hr hc hi
        rcases hband : bands[i]? with _ | band
        · rw [List.getElem?_eq_none_iff] at hband
          omega
        · refine ⟨band, rfl, ?_⟩
          have hlay : (bands.map fun (bd : Nat) =>
              const2 size.1 size.2 (some (bd : ℚ)))[i]?
              = some (const2 size.1 size.2 (some (band : ℚ))) := by
            rw [List.getElem?_map, hband]
            rfl
          rw [cell3_stack3 hr hc hlay, cell2_const2 hr hc]
  · intro s size offset bands b hwf hy hx h
    obtain ⟨f0L, wavL, toaL, hf0, hwav, htoa, hb⟩ := readM_inv h
    subst hb
    intro r c i hr hc hi
    obtain ⟨band, Lw, hband, hLw, hfw⟩ := mapM_ok_getElem hwav i hi
    obtain ⟨band2, Lf, hband2, hLf, hff⟩ := mapM_ok_getElem hf0 i hi
    rw [hband] at hband2
    cases hband2
    obtain ⟨wname, wcol, hwname, hwcol, hLweq⟩ := lookupLayer_inv hfw
    obtain ⟨fname, fcol, hfname, hfcol, hLfeq⟩ := lookupLayer_inv hff
    refine ⟨band, wname, wcol, fname, fcol, hband, hwname, hwcol, ?_,
      hfname, hfcol, ?_⟩
    · rw [cell3_stack3 hr hc hLw, hLweq,
        cell2_map_map (detArr_shape hwf hy hx) hr hc]
    · rw [cell3_stack3 hr hc hLf, hLfeq,
        cell2_map_map (detArr_shape hwf hy hx) hr hc]

/-- Witness for the amended C4 at the three fixtures: a MERIS-family
tabular source, a non-detector tabular source, and the binary source. -/
theorem C4_smile_lookup_witness :
    (∃ b, srcC4.read_block (1, 2) (0, 0) [443] = .ok b ∧
      ∃ di, srcC4.detStep (slOf (0, 0) (1, 2)) (1, 2) = .ok di ∧
        ∃ F0a, b.F0 = some F0a) ∧
    (∃ b, srcA.read_block (3, 1) (0, 0) [412] = .ok b ∧ b.F0 = none ∧
      cell3 b.wavelen 0 0 0 = some (412 : ℚ)) ∧
    (∃ b, srcM.read_block (2, 2) (0, 0) [412] = .ok b ∧
      ∃ wname wcol, pyGet srcM.wav_band_names 412 = .ok wname ∧
        pyGet srcM.detector_wavelength wname = .ok wcol ∧
        cell3 b.wavelen 0 0 0
          = npIndex wcol (cellI (srcM.detArr (2, 2) (0, 0)) 0 0)) := by
  refine ⟨?_, ?_, ?_⟩
  · cases h4 : srcC4.read_block (1, 2) (0, 0) [443] with
    | error e =>
      have hok : (srcC4.read_block (1, 2) (0, 0) [443]).isOk = true := by decide
      rw [h4] at hok
      simp [Except.toBool] at hok
    | ok b =>
      obtain ⟨di, hdi, F0a, hF0, _⟩ :=
        (C4_smile_lookup.1 srcC4 (1, 2) (0, 0) [443] b h4).1 (by decide)
      exact ⟨b, rfl, di, hdi, F0a, hF0⟩
  · cases hA : srcA.read_block (3, 1) (0, 0) [412] with
    | error e =>
      have hok : (srcA.read_block (3, 1) (0, 0) [412]).isOk = true := by decide
      rw [hA] at hok
      simp [Except.toBool] at hok
    | ok b =>
      obtain ⟨hF0, hwav⟩ :=
        (C4_smile_lookup.1 srcA (3, 1) (0, 0) [412] b hA).2 (by decide)
      obtain ⟨band, hband, hcell⟩ :=
        hwav 0 0 0 (by decide) (by decide) (by decide)
      have hb412 : band = 412 := by
        simp at hband
        omega
      subst hb412
      exact ⟨b, rfl, hF0, hcell⟩
  · cases hM : srcM.read_block (2, 2) (0, 0) [412] with
    | error e =>
      have hok : (srcM.read_block (2, 2) (0, 0) [412]).isOk = true := by decide
      rw [hM] at hok
      simp [Except.toBool] at hok
    | ok b =>
      have hwf : srcM.prod.wf := by
        constructor
        · intro name
          show shape2 (prodM.bandData name) 2 2
          unfold prodM
          dsimp only
          split_ifs <;> exact ⟨rfl, by decide⟩
        · intro bmexpr
          show shape2 (prodM.flagData bmexpr) 2 2
          unfold prodM
          dsimp only
          split_ifs <;> exact ⟨rfl, by decide⟩
      obtain ⟨band, wname, wcol, fname, fcol, hband, hwname, hwcol, hcw, _, _, _⟩ :=
        C4_smile_lookup.2 srcM (2, 2) (0, 0) [412] b hwf (by decide) (by decide)
          hM 0 0 0 (by decide) (by decide) (by decide)
      have hb412 : band = 412 := by
        simp at hband
        omega
      subst hb412
      exact ⟨b, rfl, wname, wcol, hwname, hwcol, hcw⟩

lemma runReadsA_getElem (s : Level1_ASCII) :
    ∀ (calls : List ReadArgs) (i : Nat), i < calls.length →
      (runReadsA s calls)[i]?
        = (calls[i]?).map fun a => s.read_block a.1 a.2.1 a.2.2 := by
  intro calls
  induction calls with
  | nil => intro i hi; simp at hi
  | cons a rest ih =>
    intro i hi
    cases i with
    | zero => simp [runReadsA, readBlockStA]
    | succ j =>
      have hj := ih j (by simpa using hi)
      simpa [runReadsA, readBlockStA] using hj

lemma runReadsM_getElem (s : Level1_MERIS) :
    ∀ (calls : List ReadArgs) (i : Nat), i < calls.length →
      (runReadsM s calls)[i]?
        = (calls[i]?).map fun a => s.read_block a.1 a.2.1 a.2.2 := by
  intro calls
  induction calls with
  | nil => intro i hi; simp at hi
  | cons a rest ih =>
    intro i hi
    cases i with
    | zero => simp [runReadsM, readBlockStM]
    | succ j =>
      have hj := ih j (by simpa using hi)
      simpa [runReadsM, readBlockStM] using hj

/-- C9: `read_block` is deterministic and order-independent — in any
sequence of `read_block` calls against one source, two calls with
identical argument triples return identical Blocks (each call's result
depends only on its own arguments and the construction-time state), and
a call leaves the source state exactly as it found it (the method bodies
assign nothing to `self`; the calibration tables are loaded at
construction and only read here). -/
theorem C9_read_block_deterministic :
    (∀ (s : Level1_ASCII) (calls : List ReadArgs) (i j : Nat),
      i < calls.length → j < calls.length → calls[i]? = calls[j]? →
      (runReadsA s calls)[i]? = (runReadsA s calls)[j]?) ∧
    (∀ (s : Level1_MERIS) (calls : List ReadArgs) (i j : Nat),
      i < calls.length → j < calls.length → calls[i]? = calls[j]? →
      (runReadsM s calls)[i]? = (runReadsM s calls)[j]?) ∧
    (∀ (s : Level1_ASCII) (a : ReadArgs), (readBlockStA s a).2 = s) ∧
    (∀ (s : Level1_MERIS) (a : ReadArgs), (readBlockStM s a).2 = s) := by
  refine ⟨?_, ?_, fun _ _ => rfl, fun _ _ => rfl⟩
  · intro s calls i j hi hj hij
    rw [runReadsA_getElem s calls i hi, runReadsA_getElem s calls j hj, hij]
  · intro s calls i j hi hj hij
    rw [runReadsM_getElem s calls i hi, runReadsM_getElem s calls j hj, hij]

/-- Witness for C9: two identical calls in a three-call trace against the
tabular fixture return identical results; the binary fixture likewise. -/
theorem C9_read_block_deterministic_witness :
    (runReadsA srcA [((2, 1), (0, 0), [412]), ((1, 1), (2, 0), [412]),
        ((2, 1), (0, 0), [412])])[0]?
      = (runReadsA srcA [((2, 1), (0, 0), [412]), ((1, 1), (2, 0), [412]),
        ((2, 1), (0, 0), [412])])[2]? ∧
    (runReadsM srcM [((1, 2), (0, 0), [412]), ((1, 2), (1, 0), [412]),
        ((1, 2), (0, 0), [412])])[0]?
      = (runReadsM srcM [((1, 2), (0, 0), [412]), ((1, 2), (1, 0), [412]),
        ((1, 2), (0, 0), [412])])[2]? :=
  ⟨C9_read_block_deterministic.1 srcA _ 0 2 (by decide) (by decide) (by decide),
   C9_read_block_deterministic.2.1 srcM _ 0 2 (by decide) (by decide) (by decide)⟩

/-- C10: with the default header mapping, requesting absolute-azimuth
mode (`relative_azimuth=False`) raises `KeyError('SAA')`, and requesting
vector-wind mode (`wind_module=False`) raises `KeyError('ZONAL_WIND')`,
during column assembly in `__init__` — before any file data is read (the
result is the same for every input file) — so these modes need a
caller-supplied headers dictionary. -/
theorem C10_default_headers_missing_keys :
    (∀ (file : CsvData) (square blocksize : Nat) (ah : List String)
       (sensor : Option String) (BANDS : Option (List Nat)) (TOAR : String)
       (wind_module : Bool) (smf smw : List (String × List Val))
       (bands : List Nat), resolveBANDS sensor BANDS = .ok bands →
      initASCII file square blocksize ah sensor BANDS TOAR headers_default
        false wind_module smf smw = .error (.keyError "SAA")) ∧
    (∀ (file : CsvData) (square blocksize : Nat) (ah : List String)
       (sensor : Option String) (BANDS : Option (List Nat)) (TOAR : String)
       (smf smw : List (String × List Val))
       (bands : List Nat), resolveBANDS sensor BANDS = .ok bands →
      initASCII file square blocksize ah sensor BANDS TOAR headers_default
        true false smf smw = .error (.keyError "ZONAL_WIND")) := by
  constructor
  · intro file square blocksize ah sensor BANDS TOAR wind_module smf smw bands hres
    unfold initASCII
    rw [hres, ebind_ok]
    rfl
  · intro file square blocksize ah sensor BANDS TOAR smf smw bands hres
    unfold initASCII
    rw [hres, ebind_ok]
    rfl

/-- Witness for C10 with a concrete sensor, bands and file. -/
theorem C10_default_headers_missing_keys_witness :
    resolveBANDS (some "MODIS") none = .ok BANDS_MODIS ∧
    initASCII (mkFile 4) 2 100 [] (some "MODIS") none "radiance" headers_default
      false true [] [] = .error (.keyError "SAA") ∧
    initASCII (mkFile 4) 2 100 [] (some "MODIS") none "radiance" headers_default
      true false [] [] = .error (.keyError "ZONAL_WIND") :=
  ⟨by decide,
   C10_default_headers_missing_keys.1 (mkFile 4) 2 100 [] (some "MODIS") none
     "radiance" true [] [] BANDS_MODIS (by decide),
   C10_default_headers_missing_keys.2 (mkFile 4) 2 100 [] (some "MODIS") none
     "radiance" [] [] BANDS_MODIS (by decide)⟩

/-- Counterexample for C7: a 3-row file with `square = 2` fails
construction via the bare `assert nrows % square == 0`, i.e. with
`AssertionError` — not with the specification's `ShapeError`, which names
no exception class of the source. -/
theorem C7_counterexample :
    initASCII (mkFile 3) 2 100 [] (some "SeaWiFS") (some [412]) "radiance"
        headers_default true true [] [] = .error .assertionError ∧
    initASCII (mkFile 3) 2 100 [] (some "SeaWiFS") (some [412]) "radiance"
        headers_default true true [] [] ≠ .error .shapeError := by
  constructor
  · decide
  · decide

/-- C7 as amended: when construction reaches the row-count check (the
earlier phases — band resolution, column assembly, CSV parse — succeed
and `square > 0`), a row count that is not an exact multiple of `square`
fails construction with an assertion failure (`AssertionError`, not the
spec's `ShapeError`) and never silently truncates; an exact multiple
succeeds with shape `(nrows/square, square)` covering all rows. -/
theorem C7_row_count_assert
    (file : CsvData) (square blocksize : Nat) (ah : List String)
    (sensor : Option String) (BANDS : Option (List Nat)) (TOAR : String)
    (headers : List (String × String)) (ra wm : Bool)
    (smf smw : List (String × List Val))
    (bands : List Nat) (band_names : List (Nat × String)) (cols : List String)
    (csv : List (String × List Val))
    (hres : resolveBANDS sensor BANDS = .ok bands)
    (hbn : mkBandNames headers bands = .ok band_names)
    (hbc : buildColumns headers ra wm sensor ah band_names = .ok cols)
    (hcsv : readCsv file cols = .ok csv)
    (hsq : 0 < square) :
    (file.nrows % square ≠ 0 →
      initASCII file square blocksize ah sensor BANDS TOAR headers ra wm smf smw
        = .error .assertionError) ∧
    (file.nrows % square = 0 →
      ∃ s, initASCII file square blocksize ah sensor BANDS TOAR headers ra wm smf smw
          = .ok s ∧
        s.height = file.nrows / square ∧ s.width = square ∧
        s.height * s.width = file.nrows) := by
  constructor
  · intro hmod
    unfold initASCII
    rw [hres, ebind_ok, hbn, ebind_ok, hbc, ebind_ok, hcsv, ebind_ok]
    rw [if_neg (by omega), if_neg hmod]
  · intro hmod
    have hinit : initASCII file square blocksize ah sensor BANDS TOAR headers
        ra wm smf smw = .ok
          { sensor := sensor, TOAR := TOAR, headers := headers,
            relative_azimuth := ra, wind_module := wm, band_names := band_names,
            F0 := if isMerisFamily sensor then smf else [],
            detector_wavelength := if isMerisFamily sensor then smw else [],
            F0_band_names := if isMerisFamily sensor then mkF0BandNames bands else [],
            wav_band_names := if isMerisFamily sensor then mkWavBandNames bands else [],
            csv := csv, height := file.nrows / square, width := square,
            blocksize := blocksize, dates := file.dates } := by
      unfold initASCII
      rw [hres, ebind_ok, hbn, ebind_ok, hbc, ebind_ok, hcsv, ebind_ok]
      rw [if_neg (by omega), if_pos hmod]
    exact ⟨_, hinit, rfl, rfl,
      Nat.div_mul_cancel (Nat.dvd_of_mod_eq_zero hmod)⟩

/-- Witness for the amended C7: a 4-row file with `square = 2` constructs
a source of shape `(2, 2)`. -/
theorem C7_row_count_assert_witness :
    (mkFile 4).nrows % 2 = 0 ∧
    ∃ s, initASCII (mkFile 4) 2 100 [] (some "SeaWiFS") (some [412]) "radiance"
        headers_default true true [] [] = .ok s ∧
      s.height = (mkFile 4).nrows / 2 ∧ s.width = 2 ∧
      s.height * s.width = (mkFile 4).nrows :=
  ⟨by decide,
   (C7_row_count_assert (mkFile 4) 2 100 [] (some "SeaWiFS") (some [412])
     "radiance" headers_default true true [] [] [412] [(412, "TOAR_01")]
     ["LAT", "LON", "TIME", "OZONE_ECMWF", "PRESS_ECMWF", "SUN_ZENITH",
      "VIEW_ZENITH", "DELTA_AZIMUTH", "WINDM", "TOAR_01"]
     (mkFile 4).columns
     (by decide) (by decide) (by decide) (by decide) (by decide)).2 (by decide)⟩

lemma initASCII_ok_TOAR {file : CsvData} {square blocksize : Nat}
    {ah : List String} {sensor : Option String} {BANDS : Option (List Nat)}
    {TOAR : String} {headers : List (String × String)} {ra wm : Bool}
    {smf smw : List (String × List Val)} {s : Level1_ASCII}
    (h : initASCII file square blocksize ah sensor BANDS TOAR headers ra wm smf smw
      = .ok s) : s.TOAR = TOAR := by
  unfold initASCII at h
  obtain ⟨bands, hbands, h⟩ := except_ok_of_bind h
  obtain ⟨band_names, hbn, h⟩ := except_ok_of_bind h
  obtain ⟨cols, hbc, h⟩ := except_ok_of_bind h
  obtain ⟨csv, hcsv, h⟩ := except_ok_of_bind h
  by_cases hs0 : square = 0
  · rw [if_pos hs0] at h
    exact Except.noConfusion h
  · rw [if_neg hs0] at h
    by_cases hmod : file.nrows % square = 0
    · rw [if_pos hmod] at h
      have h2 := Except.ok.inj h
      rw [← h2]
    · rw [if_neg hmod] at h
      exact Except.noConfusion h

/-- Counterexample for C8: construction with the unsupported
radiometric-quantity mode `'foobar'` SUCCEEDS — a Source is returned and
the failure is deferred to the first `read_block`, which raises a plain
`Exception`; no `ConfigurationError` and no construction-time failure
occurs, contradicting the claim. -/
theorem C8_counterexample :
    ∃ s, initASCII (mkFile 4) 2 100 [] (some "SeaWiFS") (some [412]) "foobar"
        headers_default true true [] [] = .ok s ∧
      s.read_block (2, 2) (0, 0) [412]
        = .error (.exception "Invalid TOAR type foobar") := by
  cases h : initASCII (mkFile 4) 2 100 [] (some "SeaWiFS") (some [412]) "foobar"
      headers_default true true [] [] with
  | error e =>
    have hok : (initASCII (mkFile 4) 2 100 [] (some "SeaWiFS") (some [412]) "foobar"
        headers_default true true [] []).isOk = true := by decide
    rw [h] at hok
    simp [Except.toBool] at hok
  | ok s =>
    have hcomp : (initASCII (mkFile 4) 2 100 [] (some "SeaWiFS") (some [412]) "foobar"
        headers_default true true [] []).map
        (fun ss => ss.read_block (2, 2) (0, 0) [412])
        = .ok (.error (.exception "Invalid TOAR type foobar")) := by decide
    rw [h] at hcomp
    simp only [Except.map] at hcomp
    exact ⟨s, rfl, Except.ok.inj hcomp⟩

/-- C8 as amended: an unsupported sensor identifier fails construction
immediately, but with `KeyError` from the band-dict lookup (not
`ConfigurationError`), and only when `BANDS` is left to default; an
unsupported radiometric-quantity mode is NOT validated at construction —
a Source carrying the bad mode is returned and every later `read_block`
on it fails (with `Exception`), i.e. that validation is deferred. -/
theorem C8_construction_validation :
    (∀ (file : CsvData) (square blocksize : Nat) (ah : List String) (TOAR : String)
       (headers : List (String × String)) (ra wm : Bool)
       (smf smw : List (String × List Val)),
      initASCII file square blocksize ah none none TOAR headers ra wm smf smw
        = .error (.keyError "None")) ∧
    (∀ (name : String) (file : CsvData) (square blocksize : Nat) (ah : List String)
       (TOAR : String) (headers : List (String × String)) (ra wm : Bool)
       (smf smw : List (String × List Val)),
      List.lookup name BANDS_dict = none →
      initASCII file square blocksize ah (some name) none TOAR headers ra wm smf smw
        = .error (.keyError name)) ∧
    (∀ (file : CsvData) (square blocksize : Nat) (ah : List String)
       (sensor : Option String) (BANDS : Option (List Nat)) (TOAR : String)
       (headers : List (String × String)) (ra wm : Bool)
       (smf smw : List (String × List Val)) (s : Level1_ASCII),
      initASCII file square blocksize ah sensor BANDS TOAR headers ra wm smf smw
        = .ok s →
      s.TOAR = TOAR ∧
      (TOAR ≠ "radiance" → TOAR ≠ "reflectance" →
        ∀ (size offset : Nat × Nat) (bands : List Nat) (b : BlockA),
          s.read_block size offset bands ≠ .ok b)) := by
  refine ⟨?_, ?_, ?_⟩
  · intro file square blocksize ah TOAR headers ra wm smf smw
    rfl
  · intro name file square blocksize ah TOAR headers ra wm smf smw hlk
    have hres : resolveBANDS (some name) none = .error (.keyError name) := by
      show pyGet BANDS_dict name = .error (.keyError name)
      unfold pyGet
      rw [hlk]
      rfl
    unfold initASCII
    rw [hres, ebind_err]
  · intro file square blocksize ah sensor BANDS TOAR headers ra wm smf smw s hinit
    have hTOAR := initASCII_ok_TOAR hinit
    refine ⟨hTOAR, ?_⟩
    intro h1 h2 size offset bands b hok
    obtain ⟨la, lo, sz, vz, az, tls, rl, wf, jd, mo, raaA, oz, ws, sp,
      _, _, _, _, _, _, hrl, _, _, _, _, _, _, _, _⟩ := readA_inv hok
    rcases toarStep_inv hrl with ⟨hrefl, _⟩ | ⟨hrad, _⟩
    · rw [hTOAR] at hrefl
      exact h2 hrefl
    · rw [hTOAR] at hrad
      exact h1 hrad

/-- Witness for the amended C8: the missing-sensor and unknown-sensor
`KeyError`s, and a concrete source constructed with mode `'foobar'`
whose `read_block` then refuses every request. -/
theorem C8_construction_validation_witness :
    initASCII (mkFile 4) 2 100 [] none none "radiance" headers_default
      true true [] [] = .error (.keyError "None") ∧
    initASCII (mkFile 4) 2 100 [] (some "OLCI") none "radiance" headers_default
      true true [] [] = .error (.keyError "OLCI") ∧
    ∃ s, initASCII (mkFile 4) 2 100 [] (some "SeaWiFS") (some [412]) "foobar"
        headers_default true true [] [] = .ok s ∧ s.TOAR = "foobar" ∧
      ∀ b, s.read_block (2, 2) (0, 0) [412] ≠ .ok b := by
  refine ⟨C8_construction_validation.1 (mkFile 4) 2 100 [] "radiance"
      headers_default true true [] [],
    C8_construction_validation.2.1 "OLCI" (mkFile 4) 2 100 [] "radiance"
      headers_default true true [] [] (by decide), ?_⟩
  cases h : initASCII (mkFile 4) 2 100 [] (some "SeaWiFS") (some [412]) "foobar"
      headers_default true true [] [] with
  | error e =>
    have hok : (initASCII (mkFile 4) 2 100 [] (some "SeaWiFS") (some [412]) "foobar"
        headers_default true true [] []).isOk = true := by decide
    rw [h] at hok
    simp [Except.toBool] at hok
  | ok s =>
    obtain ⟨hT, hrb⟩ := C8_construction_validation.2.2 (mkFile 4) 2 100 []
      (some "SeaWiFS") (some [412]) "foobar" headers_default true true [] [] s h
    exact ⟨s, rfl, hT, fun b => hrb (by decide) (by decide) (2, 2) (0, 0) [412] b⟩

lemma azStep_window {s : Level1_ASCII} {H x yoff ys : Nat}
    {az : Option Arr2 × Option Arr2 × Option Arr2}
    (h : s.azStep (slOf (0, 0) (H, x)) (H, x) = .ok az) (hle : yoff + ys ≤ H) :
    s.azStep (slOf (yoff, 0) (ys, x)) (ys, x)
      = .ok (az.1.map (fun A => window2 A yoff ys),
             az.2.1.map (fun A => window2 A yoff ys),
             az.2.2.map (fun A => window2 A yoff ys)) := by
  rcases azStep_inv h with ⟨r, hrel, hr, rfl⟩ | ⟨sa, va, hrel, hsa, hva, rfl⟩
  · unfold Level1_ASCII.azStep
    rw [hrel]
    simp only [if_true]
    rw [get_field_window hr hle, ebind_ok]
    rfl
  · unfold Level1_ASCII.azStep
    rw [hrel]
    simp only [Bool.false_eq_true, if_false]
    rw [get_field_window hsa hle, ebind_ok, get_field_window hva hle, ebind_ok]
    rfl

lemma windStep_window {s : Level1_ASCII} {H x yoff ys : Nat} {ws : Arr2}
    (h : s.windStep (slOf (0, 0) (H, x)) (H, x) = .ok ws) (hle : yoff + ys ≤ H) :
    s.windStep (slOf (yoff, 0) (ys, x)) (ys, x) = .ok (window2 ws yoff ys) := by
  rcases windStep_inv h with ⟨hwm, hw⟩ | ⟨zw, mw, hwm, hzw, hmw, rfl⟩
  · unfold Level1_ASCII.windStep
    rw [hwm]
    simp only [if_true]
    exact get_field_window hw hle
  · unfold Level1_ASCII.windStep
    rw [hwm]
    simp only [Bool.false_eq_true, if_false]
    rw [get_field_window hzw hle, ebind_ok, get_field_window hmw hle, ebind_ok]
    rw [zip2With_window]
    rfl

lemma detStep_window {s : Level1_ASCII} {H x yoff ys : Nat} {di : List (List Int)}
    (h : s.detStep (slOf (0, 0) (H, x)) (H, x) = .ok di) (hle : yoff + ys ≤ H) :
    s.detStep (slOf (yoff, 0) (ys, x)) (ys, x) = .ok (window2 di yoff ys) := by
  obtain ⟨dname, dcol, di2, hdn, hdc, hdi2, rfl⟩ := detStep_inv h
  unfold Level1_ASCII.detStep
  rw [hdn, ebind_ok, hdc, ebind_ok]
  simp only [slOf, Nat.zero_mul, Nat.zero_add] at hdi2 ⊢
  rw [col_window hdi2 hle, ebind_ok]
  rw [mapRows_window]
  rfl

lemma lookupLayer_window {tbl : List (String × List Val)}
    {names : List (Nat × String)} {di : List (List Int)} {band : Nat} {L : Arr2}
    {yoff ys : Nat} (h : lookupLayer tbl names di band = .ok L) :
    lookupLayer tbl names (window2 di yoff ys) band = .ok (window2 L yoff ys) := by
  obtain ⟨name, col, hname, hcol, rfl⟩ := lookupLayer_inv h
  unfold lookupLayer
  rw [hname, ebind_ok, hcol, ebind_ok, mapRows_window]

lemma smileStep_window {s : Level1_ASCII} {H x yoff ys : Nat} {bands : List Nat}
    {wf : Arr3 × Option Arr3}
    (h : s.smileStep (slOf (0, 0) (H, x)) (H, x) bands = .ok wf) (hle : yoff + ys ≤ H) :
    s.smileStep (slOf (yoff, 0) (ys, x)) (ys, x) bands
      = .ok (window2 wf.1 yoff ys, wf.2.map (fun A => window2 A yoff ys)) := by
  rcases smileStep_inv h with ⟨di, f0L, wavL, hfam, hdi, hf0, hwavL, rfl⟩ | ⟨hfam, rfl⟩
  · unfold Level1_ASCII.smileStep
    rw [hfam]
    simp only [if_true]
    rw [detStep_window hdi hle, ebind_ok]
    rw [mapM_ok_map (fun band L hL => lookupLayer_window hL) hf0, ebind_ok]
    rw [mapM_ok_map (fun band L hL => lookupLayer_window hL) hwavL, ebind_ok]
    show Except.ok (stack3 ys x (wavL.map fun A => window2 A yoff ys),
          some (stack3 ys x (f0L.map fun A => window2 A yoff ys)))
        = Except.ok (window2 (stack3 H x wavL) yoff ys,
          some (window2 (stack3 H x f0L) yoff ys))
    rw [stack3_window hle, stack3_window hle]
  · unfold Level1_ASCII.smileStep
    rw [hfam]
    simp only [Bool.false_eq_true, if_false]
    have harr : window2 (stack3 H x (bands.map fun (band : Nat) =>
        const2 H x (some (band : ℚ)))) yoff ys
        = stack3 ys x (bands.map fun (band : Nat) => const2 ys x (some (band : ℚ))) := by
      rw [stack3_window hle, List.map_map]
      congr 1
      apply List.map_congr_left
      intro band _
      show window2 (const2 H x (some (band : ℚ))) yoff ys
        = const2 ys x (some (band : ℚ))
      rw [const2_window hle]
    show Except.ok (stack3 ys x (bands.map fun (band : Nat) =>
          const2 ys x (some (band : ℚ))), (none : Option Arr3))
        = Except.ok (window2 (stack3 H x (bands.map fun (band : Nat) =>
          const2 H x (some (band : ℚ)))) yoff ys, (none : Option Arr3).map
            (fun A => window2 A yoff ys))
    rw [harr]
    rfl

lemma raaView_window {az : Option Arr2 × Option Arr2 × Option Arr2} {raaA : Arr2}
    {yoff ys : Nat} (h : raaView az.1 az.2.1 az.2.2 = .ok raaA) :
    raaView (az.1.map (fun A => window2 A yoff ys))
            (az.2.1.map (fun A => window2 A yoff ys))
            (az.2.2.map (fun A => window2 A yoff ys))
      = .ok (window2 raaA yoff ys) := by
  obtain ⟨a1, a2, a3⟩ := az
  cases a1 with
  | some r =>
    unfold raaView at h ⊢
    cases h
    rfl
  | none =>
    cases a2 with
    | none => cases a3 <;> exact Except.noConfusion h
    | some sa =>
      cases a3 with
      | none => exact Except.noConfusion h
      | some va =>
        unfold raaView at h ⊢
        cases h
        simp only [Option.map_some', Option.map_none']
        rw [zip2With_window]

lemma blocks_single {H W B : Nat} (hH : 0 < H) (hle : H ≤ B) :
    blocks H W B = [((0, 0), (H, W))] := by
  have hn : nblocksOf H B = 1 := by
    unfold nblocksOf
    exact Nat.div_eq_of_lt_le (by omega) (by omega)
  unfold blocks
  rw [hn]
  show [((0 * B, 0), (if 0 = 1 - 1 then H - (1 - 1) * B else B, W))] = [((0, 0), (H, W))]
  simp

lemma blocks_mem_le {H W B : Nat} {t : (Nat × Nat) × (Nat × Nat)}
    (ht : t ∈ blocks H W B) :
    t.1.2 = 0 ∧ t.2.2 = W ∧ t.1.1 + t.2.1 ≤ H := by
  unfold blocks at ht
  simp only [List.mem_map, List.mem_range] at ht
  obtain ⟨i, hi, rfl⟩ := ht
  have hH : 0 < H := by
    by_contra hH0
    push_neg at hH0
    interval_cases H
    have hB0 : 0 < B ∨ B = 0 := by omega
    rcases hB0 with hB | hB
    · rw [nblocksOf_zero hB] at hi
      omega
    · subst hB
      unfold nblocksOf at hi
      simp at hi
  have hB : 0 < B := by
    by_contra hB0
    push_neg at hB0
    interval_cases B
    unfold nblocksOf at hi
    omega
  refine ⟨rfl, rfl, ?_⟩
  have hlast := nblocksOf_pred_mul_lt hB hH
  dsimp only
  split_ifs with hl
  · subst hl
    omega
  · have hstep : (i + 1) * B ≤ (nblocksOf H B - 1) * B :=
      Nat.mul_le_mul_right B (by omega)
    rw [Nat.succ_mul] at hstep
    omega

lemma asciiTileWindow {s : Level1_ASCII} {bands : List Nat} {fb : BlockA}
    {yoff ys : Nat} (hle : yoff + ys ≤ s.height)
    (hfull : s.read_block (s.height, s.width) (0, 0) bands = .ok fb) :
    ∃ tb, s.read_block (ys, s.width) (yoff, 0) bands = .ok tb ∧
      tb.latitude = window2 fb.latitude yoff ys ∧
      tb.longitude = window2 fb.longitude yoff ys ∧
      tb.sza = window2 fb.sza yoff ys ∧
      tb.vza = window2 fb.vza yoff ys ∧
      tb.raaStored = fb.raaStored.map (fun A => window2 A yoff ys) ∧
      tb.saa = fb.saa.map (fun A => window2 A yoff ys) ∧
      tb.vaa = fb.vaa.map (fun A => window2 A yoff ys) ∧
      tb.Rtoa = fb.Rtoa.map (fun A => window2 A yoff ys) ∧
      tb.Ltoa = fb.Ltoa.map (fun A => window2 A yoff ys) ∧
      tb.F0 = fb.F0.map (fun A => window2 A yoff ys) ∧
      tb.wavelen = window2 fb.wavelen yoff ys ∧
      tb.jday = window2 fb.jday yoff ys ∧
      tb.month = window2 fb.month yoff ys ∧
      tb.bitmask = window2 fb.bitmask yoff ys ∧
      tb.ozone = window2 fb.ozone yoff ys ∧
      tb.wind_speed = window2 fb.wind_speed yoff ys ∧
      tb.surf_press = window2 fb.surf_press yoff ys := by
  obtain ⟨la, lo, sz, vz, az, tls, rl, wf, jd, mo, raaA, oz, ws, sp,
    hla, hlo, hsz, hvz, haz, htls, hrl, hwf, hjd, hmo, hraa, hoz, hws, hsp, hb⟩ :=
    readA_inv hfull
  subst hb
  simp only [slOf, Nat.zero_mul, Nat.zero_add] at hjd hmo
  have hjd2 := col_window hjd hle
  have hmo2 := col_window hmo hle
  have hbit : window2 ((zip2With invalidCell raaA
        (sliceBand (stack3 s.height s.width tls) 0)).map
        (fun row => row.map asciiBitmaskCell)) yoff ys
      = (zip2With invalidCell (window2 raaA yoff ys)
          (sliceBand (stack3 ys s.width (tls.map fun A => window2 A yoff ys)) 0)).map
          (fun row => row.map asciiBitmaskCell) := by
    rw [mapRows_window, zip2With_window, ← stack3_window hle, sliceBand_window]
  have hTOA : stack3 ys s.width (tls.map fun A => window2 A yoff ys)
      = window2 (stack3 s.height s.width tls) yoff ys := (stack3_window hle).symm
  rcases toarStep_inv hrl with ⟨hT, hrleq⟩ | ⟨hT, hrleq⟩ <;> subst hrleq
  · have hrl2 : s.toarStep (stack3 ys s.width (tls.map fun A => window2 A yoff ys))
        = .ok (some (stack3 ys s.width (tls.map fun A => window2 A yoff ys)),
               (none : Option Arr3)) := by
      unfold Level1_ASCII.toarStep
      rw [hT]
      simp only [if_pos rfl]
      rfl
    have hok := readA_construct (get_field_window hla hle) (get_field_window hlo hle)
      (get_field_window hsz hle) (get_field_window hvz hle) (azStep_window haz hle)
      (mapM_ok_map (fun band L hL => toaLayer_window hL hle) htls) hrl2
      (smileStep_window hwf hle) hjd2 hmo2 (raaView_window hraa)
      (get_field_window hoz hle) (windStep_window hws hle)
      (get_field_window hsp hle)
    refine ⟨_, hok, rfl, rfl, rfl, rfl, rfl, rfl, rfl, ?_, rfl, rfl, rfl, rfl, rfl,
      hbit.symm, rfl, rfl, rfl⟩
    show some (stack3 ys s.width (tls.map fun A => window2 A yoff ys))
      = some (window2 (stack3 s.height s.width tls) yoff ys)
    rw [hTOA]
  · have hrl2 : s.toarStep (stack3 ys s.width (tls.map fun A => window2 A yoff ys))
        = .ok ((none : Option Arr3),
               some (stack3 ys s.width (tls.map fun A => window2 A yoff ys))) := by
      unfold Level1_ASCII.toarStep
      rw [hT]
      have hne : ("radiance" : String) ≠ "reflectance" := by decide
      rw [if_neg hne]
      simp only [if_pos rfl]
      rfl
    have hok := readA_construct (get_field_window hla hle) (get_field_window hlo hle)
      (get_field_window hsz hle) (get_field_window hvz hle) (azStep_window haz hle)
      (mapM_ok_map (fun band L hL => toaLayer_window hL hle) htls) hrl2
      (smileStep_window hwf hle) hjd2 hmo2 (raaView_window hraa)
      (get_field_window hoz hle) (windStep_window hws hle)
      (get_field_window hsp hle)
    refine ⟨_, hok, rfl, rfl, rfl, rfl, rfl, rfl, rfl, rfl, ?_, rfl, rfl, rfl, rfl,
      hbit.symm, rfl, rfl, rfl⟩
    show some (stack3 ys s.width (tls.map fun A => window2 A yoff ys))
      = some (window2 (stack3 s.height s.width tls) yoff ys)
    rw [hTOA]

/-- C3: reading a full tabular source as a single tile (block size
`B1 ≥ height`, which makes the blocking strategy yield exactly one tile
covering everything) and reading it with any smaller block size `B2 > 0`
give identical per-pixel values at identical absolute coordinates: every
tile block of the `B2` iteration equals, field by field, the rows
`yoff .. yoff+ysize-1` of the single full block. -/
theorem C3_blocking_equivalence (s : Level1_ASCII) (bands : List Nat) (B1 B2 : Nat)
    (hB1 : s.height ≤ B1) (hB2 : 0 < B2) (hH : 0 < s.height) :
    blocks s.height s.width B1 = [((0, 0), (s.height, s.width))] ∧
    ∀ fb, s.read_block (s.height, s.width) (0, 0) bands = .ok fb →
      ∀ tile ∈ blocks s.height s.width B2,
        ∃ tb, s.read_block tile.2 tile.1 bands = .ok tb ∧
          tb.latitude = window2 fb.latitude tile.1.1 tile.2.1 ∧
          tb.longitude = window2 fb.longitude tile.1.1 tile.2.1 ∧
          tb.sza = window2 fb.sza tile.1.1 tile.2.1 ∧
          tb.vza = window2 fb.vza tile.1.1 tile.2.1 ∧
          tb.raaStored = fb.raaStored.map (fun A => window2 A tile.1.1 tile.2.1) ∧
          tb.saa = fb.saa.map (fun A => window2 A tile.1.1 tile.2.1) ∧
          tb.vaa = fb.vaa.map (fun A => window2 A tile.1.1 tile.2.1) ∧
          tb.Rtoa = fb.Rtoa.map (fun A => window2 A tile.1.1 tile.2.1) ∧
          tb.Ltoa = fb.Ltoa.map (fun A => window2 A tile.1.1 tile.2.1) ∧
          tb.F0 = fb.F0.map (fun A => window2 A tile.1.1 tile.2.1) ∧
          tb.wavelen = window2 fb.wavelen tile.1.1 tile.2.1 ∧
          tb.jday = window2 fb.jday tile.1.1 tile.2.1 ∧
          tb.month = window2 fb.month tile.1.1 tile.2.1 ∧
          tb.bitmask = window2 fb.bitmask tile.1.1 tile.2.1 ∧
          tb.ozone = window2 fb.ozone tile.1.1 tile.2.1 ∧
          tb.wind_speed = window2 fb.wind_speed tile.1.1 tile.2.1 ∧
          tb.surf_press = window2 fb.surf_press tile.1.1 tile.2.1 := by
  refine ⟨blocks_single hH hB1, ?_⟩
  intro fb hfull tile htile
  obtain ⟨hx0, hxW, hsum⟩ := blocks_mem_le htile
  obtain ⟨⟨yoff, xoff⟩, ys, xs⟩ := tile
  dsimp only at hx0 hxW hsum ⊢
  subst hx0
  subst hxW
  exact asciiTileWindow hsum hfull

/-- Witness for C3: the `(3,1)` fixture, read whole (`B1 = 3`) and in
`B2 = 2` tiles; the second tile `((2,0),(1,1))` reproduces row 2 of the
full block. -/
theorem C3_blocking_equivalence_witness :
    0 < 2 ∧ blocks 3 1 3 = [((0, 0), (3, 1))] ∧
    ∃ fb tb, srcA.read_block (3, 1) (0, 0) [412] = .ok fb ∧
      srcA.read_block (1, 1) (2, 0) [412] = .ok tb ∧
      tb.latitude = window2 fb.latitude 2 1 ∧
      tb.wind_speed = window2 fb.wind_speed 2 1 := by
  cases hA : srcA.read_block (3, 1) (0, 0) [412] with
  | error e =>
    have hok : (srcA.read_block (3, 1) (0, 0) [412]).isOk = true := by decide
    rw [hA] at hok
    simp [Except.toBool] at hok
  | ok fb =>
    obtain ⟨hsingle, hmain⟩ :=
      C3_blocking_equivalence srcA [412] 3 2 (by decide) (by decide) (by decide)
    obtain ⟨tb, hok, hlat, _, _, _, _, _, _, _, _, _, _, _, _, _, _, hwind, _⟩ :=
      hmain fb hA ((2, 0), (1, 1)) (by decide)
    exact ⟨by decide, hsingle, fb, tb, rfl, hok, hlat, hwind⟩
